import Mathlib

/-!
Provisioner: Director client and the wait-for-cluster-deletion stage.

A shallow embedding of `components/provisioner/internal/director/directorclient.go`
together with the collaborators it talks to, and theorems about the error
classification and the call discipline of the client.

Conventions of the embedding

* Go methods with a pointer receiver that mutate the client become functions
  `State → result × State`; the state also counts the interactions with the
  collaborators (OAuth client, GraphQL client, token check), so that the order and
  number of remote interactions can be stated.
* A Go pair `(value, err)` becomes `value × Option AppError`, `nil` being `none`.
* `fmt.Sprintf` with `%s` / `%v` applied to strings and errors is string
  concatenation; a message handed over as a format is taken to hold no verbs.
* Logging calls have no effect on the results and are left out.
-/

namespace apperrors

/-- Modelled from the spec: the error categories of package `apperrors` (its source is
not among the files); `directorclient.go` names `CodeBadRequest`, and uses the
constructors `Internal`, `BadRequest`, `BadGateway`, `InvalidTenant`. -/
inductive ErrCode
  | CodeInternal
  | CodeExternal
  | CodeBadRequest
  | CodeBadGateway
  deriving DecidableEq, Repr

/-- Modelled from the spec: the cause carried by an error next to its category;
`directorclient.go` names `TenantNotFound`, every other error has cause `Unknown`. -/
inductive CauseCode
  | Unknown
  | TenantNotFound
  deriving DecidableEq, Repr

/-- Modelled from the spec: `type ErrReason string` (the sources convert strings to it). -/
abbrev ErrReason := String

/-- Modelled from the spec: `type ErrComponent string`. -/
abbrev ErrComponent := String

/-- Modelled from the spec: the value of the component constant `ErrCompassDirector`
is not in the sources; only its identity is used. -/
def ErrCompassDirector : ErrComponent := "compass director"

/-- Modelled from the spec: the value of the component constant
`ErrCompassDirectorClient` is not in the sources; only its identity is used. -/
def ErrCompassDirectorClient : ErrComponent := "director client"

/-- Modelled from the spec: the value of the component constant `ErrGardenerClient`
is not in the sources; only its identity is used. -/
def ErrGardenerClient : ErrComponent := "k8s client - gardener"

/-- Modelled from the spec: the value of the component constant `ErrDB` is not in the
sources; only its identity is used. -/
def ErrDB : ErrComponent := "db - provisioner"

/-- Modelled from the spec: the value of the reason constant `ErrDirectorNilResponse`
is not in the sources; only its identity is used. -/
def ErrDirectorNilResponse : ErrReason := "err_director_nil_response"

/-- Modelled from the spec: the value of the reason constant
`ErrDirectorRuntimeIDMismatch` is not in the sources; only its identity is used. -/
def ErrDirectorRuntimeIDMismatch : ErrReason := "err_director_runtime_id_mismatch"

/-- Modelled from the spec: the value of the reason constant
`ErrDirectorClientGraphqlizer` is not in the sources; only its identity is used. -/
def ErrDirectorClientGraphqlizer : ErrReason := "err_director_client_graphqlizer"

/-- Modelled from the spec: the `AppError` value of package `apperrors`: a category
code, a cause, the component and reason tags, and the human-readable message chain.
The interface methods `Code()`, `Cause()`, `Component()`, `Reason()`, `Error()` are
the projections. -/
structure AppError where
  code : ErrCode
  cause : CauseCode
  component : ErrComponent
  reason : ErrReason
  message : String
  deriving DecidableEq, Repr

/-- Modelled from the spec: the common constructor behind `Internal`, `BadRequest`, ...;
a fresh error carries no component and no reason (the test file expects reason `""`
of `External("some error").SetComponent(...)`). -/
def errorf (code : ErrCode) (cause : CauseCode) (msg : String) : AppError :=
  { code := code, cause := cause, component := "", reason := "", message := msg }

/-- Modelled from the spec: `apperrors.Internal`, the internal category. -/
def Internal (msg : String) : AppError := errorf .CodeInternal .Unknown msg

/-- Modelled from the spec: `apperrors.External`, the external category. -/
def External (msg : String) : AppError := errorf .CodeExternal .Unknown msg

/-- Modelled from the spec: `apperrors.BadRequest`, the bad-request category. -/
def BadRequest (msg : String) : AppError := errorf .CodeBadRequest .Unknown msg

/-- Modelled from the spec: `apperrors.BadGateway`, the bad-gateway category. -/
def BadGateway (msg : String) : AppError := errorf .CodeBadGateway .Unknown msg

/-- Modelled from the spec: `apperrors.InvalidTenant`, the invalid-tenant category.
`RuntimeExists` recognises it as `Code() == CodeBadRequest && Cause() == TenantNotFound`,
which fixes the pair this constructor produces. -/
def InvalidTenant (msg : String) : AppError := errorf .CodeBadRequest .TenantNotFound msg

/-- Modelled from the spec: `Append` puts a context message in front of the message
chain (separator `", "`, as the expected message `"Failed to request, some error"` of
the test file shows) and preserves code, cause, component and reason. -/
def AppError.Append (ae : AppError) (additional : String) : AppError :=
  { ae with message := additional ++ ", " ++ ae.message }

/-- Modelled from the spec: `SetComponent` replaces the component tag only. -/
def AppError.SetComponent (ae : AppError) (c : ErrComponent) : AppError :=
  { ae with component := c }

/-- Modelled from the spec: `SetReason` replaces the reason tag only. -/
def AppError.SetReason (ae : AppError) (r : ErrReason) : AppError :=
  { ae with reason := r }

/-- The relation between an error handed to a caller and the error it stems from:
same code, cause, component and reason, and a message that ends with the message of
the original. -/
def AppError.wraps (outer original : AppError) : Prop :=
  outer.code = original.code ∧ outer.cause = original.cause ∧
    outer.component = original.component ∧ outer.reason = original.reason ∧
    original.message.data <:+ outer.message.data

instance (outer original : AppError) : Decidable (outer.wraps original) := by
  unfold AppError.wraps
  infer_instance

end apperrors

namespace directorApperrors

/-- The `ErrorType` of the Director library (an `int` with named constants), as the
switch of `mapDirectorErrorToProvisionerError` sees it: the ten constants the switch
names, and `other n` for a value `n` that is none of them. -/
inductive ErrorType
  | InternalError
  | UnknownError
  | InsufficientScopes
  | Unauthorized
  | NotFound
  | NotUnique
  | InvalidData
  | InvalidOperation
  | TenantRequired
  | TenantNotFound
  | other (n : Int)
  deriving DecidableEq, Repr

/-- Modelled from the spec: the `String()` method of the Director library's
`ErrorType`, which `mapDirectorErrorToProvisionerError` turns into the reason; the
library is not among the sources. For the ten constants it is the name of the code
(the reason is the name of the remote error code), and a value that is none of them
gets a rendering of its own, distinct from these names (the distinct "unrecognized
code" reason of section 4.1), in the form Go's stringer gives to a value without a
name. -/
def ErrorType.String : ErrorType → String
  | .InternalError => "InternalError"
  | .UnknownError => "UnknownError"
  | .InsufficientScopes => "InsufficientScopes"
  | .Unauthorized => "Unauthorized"
  | .NotFound => "NotFound"
  | .NotUnique => "NotUnique"
  | .InvalidData => "InvalidData"
  | .InvalidOperation => "InvalidOperation"
  | .TenantRequired => "TenantRequired"
  | .TenantNotFound => "TenantNotFound"
  | .other n => "ErrorType(" ++ toString n ++ ")"

end directorApperrors

namespace gcli

/-- The value found under a key of `Extensions()`: a JSON number (a `float64`, kept as
the `ErrorType` that the conversion `ErrorType(errorCode)` yields) or anything else. -/
inductive ExtensionValue
  | number (t : directorApperrors.ErrorType)
  | notNumber
  deriving DecidableEq, Repr

/-- The `ExtendedError` of the GraphQL client: `Error()` and the entry
`Extensions()["error_code"]` (`none` when the key is absent). -/
structure ExtendedError where
  Error : String
  error_code : Option ExtensionValue
  deriving DecidableEq, Repr

/-- The `Request` of the GraphQL client: the query and the HTTP header. -/
structure Request where
  query : String
  Header : List (String × String)
  deriving DecidableEq, Repr

/-- The constructor `NewRequest(q)`: a request for `q` with an empty header. -/
def NewRequest (q : String) : Request := { query := q, Header := [] }

/-- The call `req.Header.Set(key, value)`: the entry for `key` is replaced by `value`. -/
def Request.HeaderSet (req : Request) (key value : String) : Request :=
  { req with Header := (req.Header.filter (fun kv => kv.1 != key)) ++ [(key, value)] }

/-- The call `req.Header.Get(key)`. -/
def Request.HeaderGet (req : Request) (key : String) : Option String :=
  (req.Header.find? (fun kv => kv.1 == key)).map Prod.snd

end gcli

namespace graphql

/-- The `Labels` of the Director schema (`map[string]interface{}`); `none` is the nil
map. -/
abbrev Labels := Option (List (String × String))

/-- The `RuntimeStatusCondition` enumeration of the Director schema. -/
inductive RuntimeStatusCondition
  | INITIAL
  | PROVISIONING
  | CONNECTED
  | FAILED
  deriving DecidableEq, Repr

/-- The `RuntimeInput` of the Director schema. -/
structure RuntimeInput where
  Name : String
  Description : Option String
  Labels : Labels
  StatusCondition : Option RuntimeStatusCondition
  deriving DecidableEq, Repr

/-- The `RuntimeExt` of the Director schema (a `Runtime` with its labels); the fields
the client reads. -/
structure RuntimeExt where
  ID : String
  Name : String
  Description : Option String
  Labels : Labels
  deriving DecidableEq, Repr

/-- The zero value `graphql.RuntimeExt{}`. -/
def RuntimeExt.zero : RuntimeExt := { ID := "", Name := "", Description := none, Labels := none }

/-- The `OneTimeTokenForRuntimeExt` of the Director schema. -/
structure OneTimeTokenForRuntimeExt where
  Token : String
  ConnectorURL : String
  Raw : Option String
  RawEncoded : Option String
  deriving DecidableEq, Repr

/-- The zero value `graphql.OneTimeTokenForRuntimeExt{}`. -/
def OneTimeTokenForRuntimeExt.zero : OneTimeTokenForRuntimeExt :=
  { Token := "", ConnectorURL := "", Raw := none, RawEncoded := none }

end graphql

namespace gqlschema

/-- The `RuntimeInput` of the provisioner schema, the config of `CreateRuntime`. -/
structure RuntimeInput where
  Name : String
  Description : Option String
  Labels : Option (List (String × String))
  deriving DecidableEq, Repr

end gqlschema

namespace oauth

/-- The OAuth `Token`. -/
structure Token where
  AccessToken : String
  Expiration : Int
  deriving DecidableEq, Repr

end oauth

namespace director

open apperrors

/-- What `gqlClient.Do` decoded into the response value it was handed: the `Result`
pointer of the response struct (`nil` is `none`), seen at the type the caller asked
for: a runtime for `CreateRuntimeResponse`, `GetRuntimeResponse`,
`UpdateRuntimeResponse` and `DeleteRuntimeResponse`, a one-time token for
`OneTimeTokenResponse`. -/
structure ResponseData where
  Runtime : Option graphql.RuntimeExt
  OneTimeToken : Option graphql.OneTimeTokenForRuntimeExt
  deriving DecidableEq, Repr

/-- The outcome of `gqlClient.Do(req, response)`: success with the decoded response, an
error that is a `gcli.ExtendedError`, or any other error (with its `Error()` text). -/
inductive DoOutcome
  | ok (response : ResponseData)
  | extendedError (egErr : gcli.ExtendedError)
  | otherError (msg : String)
  deriving DecidableEq, Repr

/-- The collaborators of the client, none of which is defined in
`directorclient.go`: the `String()` method of the Director library, the graphqlizer,
the query provider, the OAuth client, the token check and the GraphQL client. The
`Nat` argument of a collaborator is the number of times it was invoked before, so a
collaborator may answer differently from one call to the next. -/
structure Env where
  ErrorTypeString : directorApperrors.ErrorType → String
  RuntimeInputToGQL : graphql.RuntimeInput → Except String String
  createRuntimeMutation : String → String
  getRuntimeQuery : String → String
  updateRuntimeMutation : String → String → String
  deleteRuntimeMutation : String → String
  requestOneTimeTokeneMutation : String → String
  GetAuthorizationToken : Nat → Except AppError oauth.Token
  EmptyOrExpired : Nat → oauth.Token → Bool
  Do : Nat → gcli.Request → DoOutcome

/-- The mutable part of `directorClient` (the cached `token`) and the history of its
interactions: how often the token check and the OAuth client were invoked, and the
requests handed to `gqlClient.Do`, oldest first. -/
structure directorClient where
  token : oauth.Token
  tokenChecks : Nat
  oauthCalls : Nat
  requests : List gcli.Request
  deriving DecidableEq, Repr

/-- The constant `AuthorizationHeader`. -/
def AuthorizationHeader : String := "Authorization"

/-- The constant `TenantHeader`. -/
def TenantHeader : String := "Tenant"

/-- The function `mapDirectorErrorToProvisionerError`. -/
def mapDirectorErrorToProvisionerError (env : Env) (egErr : gcli.ExtendedError) : AppError :=
  match egErr.error_code with
  | none =>
    Internal ("Failed to read the error code from the error response. Original error: " ++ egErr.Error)
  | some .notNumber =>
    Internal ("Failed to cast the error code from the error response. Original error: " ++ egErr.Error)
  | some (.number errorCode) =>
    let reason : ErrReason := env.ErrorTypeString errorCode
    let err : AppError :=
      match errorCode with
      | .InternalError | .UnknownError => Internal egErr.Error
      | .InsufficientScopes | .Unauthorized => BadGateway egErr.Error
      | .NotFound | .NotUnique | .InvalidData | .InvalidOperation => BadRequest egErr.Error
      | .TenantRequired | .TenantNotFound => InvalidTenant egErr.Error
      | .other _ =>
        Internal ("Did not recognize the error code from the error response. Original error: " ++ egErr.Error)
    (err.SetComponent ErrCompassDirector).SetReason reason

/-- The method `getToken`. -/
def getToken (env : Env) (cc : directorClient) : Option AppError × directorClient :=
  match env.GetAuthorizationToken cc.oauthCalls with
  | .error err =>
    (some (err.Append "Error while obtaining token"), { cc with oauthCalls := cc.oauthCalls + 1 })
  | .ok token =>
    if env.EmptyOrExpired cc.tokenChecks token then
      (some (Internal "Obtained empty or expired token"),
        { cc with oauthCalls := cc.oauthCalls + 1, tokenChecks := cc.tokenChecks + 1 })
    else
      (none, { cc with token := token, oauthCalls := cc.oauthCalls + 1,
                       tokenChecks := cc.tokenChecks + 1 })

/-- The first statement of `executeDirectorGraphQLCall`: the cached token is checked
and refreshed through `getToken` when it is empty or expired. -/
def refreshToken (env : Env) (cc : directorClient) : Option AppError × directorClient :=
  if env.EmptyOrExpired cc.tokenChecks cc.token then
    getToken env { cc with tokenChecks := cc.tokenChecks + 1 }
  else
    (none, { cc with tokenChecks := cc.tokenChecks + 1 })

/-- The request `executeDirectorGraphQLCall` builds for a query and a tenant. -/
def newDirectorRequest (directorQuery tenant : String) (token : oauth.Token) : gcli.Request :=
  ((gcli.NewRequest directorQuery).HeaderSet AuthorizationHeader ("Bearer " ++ token.AccessToken)).HeaderSet
    TenantHeader tenant

/-- The method `executeDirectorGraphQLCall`; the filled response is returned next to
the error. -/
def executeDirectorGraphQLCall (env : Env) (directorQuery tenant : String) (cc : directorClient) :
    Except AppError ResponseData × directorClient :=
  match refreshToken env cc with
  | (some err, cc1) => (.error err, cc1)
  | (none, cc1) =>
    let req := newDirectorRequest directorQuery tenant cc1.token
    let cc2 := { cc1 with requests := cc1.requests ++ [req] }
    match env.Do cc1.requests.length req with
    | .extendedError egErr =>
      (.error ((mapDirectorErrorToProvisionerError env egErr).Append
        "Failed to execute GraphQL request to Director"), cc2)
    | .otherError msg =>
      (.error (Internal ("Failed to execute GraphQL request to Director: " ++ msg)), cc2)
    | .ok response => (.ok response, cc2)

/-- The method `CreateRuntime`; a nil `config` is `none`. -/
def CreateRuntime (env : Env) (config : Option gqlschema.RuntimeInput) (tenant : String)
    (cc : directorClient) : (String × Option AppError) × directorClient :=
  match config with
  | none => (("", some (BadRequest "Cannot register runtime in Director: missing Runtime config")), cc)
  | some config =>
    let labels : graphql.Labels :=
      match config.Labels with
      | some l => some l
      | none => none
    let directorInput : graphql.RuntimeInput :=
      { Name := config.Name, Description := config.Description, Labels := labels,
        StatusCondition := none }
    match env.RuntimeInputToGQL directorInput with
    | .error err =>
      (("", some (((Internal ("Failed to create graphQLized Runtime input: " ++ err)).SetComponent
        ErrCompassDirectorClient).SetReason ErrDirectorClientGraphqlizer)), cc)
    | .ok runtimeInput =>
      let runtimeQuery := env.createRuntimeMutation runtimeInput
      match executeDirectorGraphQLCall env runtimeQuery tenant cc with
      | (.error appErr, cc1) =>
        (("", some (appErr.Append "Failed to register runtime in Director. Request failed")), cc1)
      | (.ok response, cc1) =>
        match response.Runtime with
        | none =>
          (("", some (((Internal "Failed to register runtime in Director: Received nil response.").SetComponent
            ErrCompassDirector).SetReason ErrDirectorNilResponse)), cc1)
        | some result => ((result.ID, none), cc1)

/-- The method `GetRuntime`. -/
def GetRuntime (env : Env) (id tenant : String) (cc : directorClient) :
    (graphql.RuntimeExt × Option AppError) × directorClient :=
  let runtimeQuery := env.getRuntimeQuery id
  match executeDirectorGraphQLCall env runtimeQuery tenant cc with
  | (.error err, cc1) =>
    ((graphql.RuntimeExt.zero, some (err.Append ("Failed to get runtime " ++ id ++ " from Director"))), cc1)
  | (.ok response, cc1) =>
    match response.Runtime with
    | none =>
      ((graphql.RuntimeExt.zero,
        some (((Internal ("Failed to get runtime " ++ id ++ " from Director: received nil response.")).SetComponent
          ErrCompassDirector).SetReason ErrDirectorNilResponse)), cc1)
    | some result =>
      if result.ID != id then
        ((graphql.RuntimeExt.zero,
          some (((Internal ("Failed to get runtime " ++ id ++
            " from Director: received unexpected RuntimeID")).SetComponent
            ErrCompassDirector).SetReason ErrDirectorRuntimeIDMismatch)), cc1)
      else ((result, none), cc1)

/-- The method `UpdateRuntime`; a nil `directorInput` is `none`. -/
def UpdateRuntime (env : Env) (id : String) (directorInput : Option graphql.RuntimeInput)
    (tenant : String) (cc : directorClient) : Option AppError × directorClient :=
  match directorInput with
  | none => (some (BadRequest "Cannot update runtime in Director: missing Runtime config"), cc)
  | some directorInput =>
    match env.RuntimeInputToGQL directorInput with
    | .error err =>
      (some (((Internal ("Failed to create graphQLized Runtime input: " ++ err)).SetComponent
        ErrCompassDirectorClient).SetReason ErrDirectorClientGraphqlizer), cc)
    | .ok runtimeInput =>
      let runtimeQuery := env.updateRuntimeMutation id runtimeInput
      match executeDirectorGraphQLCall env runtimeQuery tenant cc with
      | (.error appErr, cc1) =>
        (some (appErr.Append ("Failed to update runtime " ++ id ++ " in Director")), cc1)
      | (.ok response, cc1) =>
        match response.Runtime with
        | none =>
          (some (((Internal ("Failed to update runtime " ++ id ++
            " in Director: received nil response.")).SetComponent
            ErrCompassDirector).SetReason ErrDirectorNilResponse), cc1)
        | some result =>
          if result.ID != id then
            (some (((Internal ("Failed to update runtime " ++ id ++
              " in Director: received unexpected RuntimeID")).SetComponent
              ErrCompassDirector).SetReason ErrDirectorRuntimeIDMismatch), cc1)
          else (none, cc1)

/-- The method `DeleteRuntime`. -/
def DeleteRuntime (env : Env) (id tenant : String) (cc : directorClient) :
    Option AppError × directorClient :=
  let runtimeQuery := env.deleteRuntimeMutation id
  match executeDirectorGraphQLCall env runtimeQuery tenant cc with
  | (.error err, cc1) =>
    (some (err.Append ("Failed to unregister runtime " ++ id ++ " in Director")), cc1)
  | (.ok response, cc1) =>
    match response.Runtime with
    | none =>
      (some (((Internal ("Failed to unregister runtime " ++ id ++
        " in Director: received nil response.")).SetComponent
        ErrCompassDirector).SetReason ErrDirectorNilResponse), cc1)
    | some result =>
      if result.ID != id then
        (some (((Internal ("Failed to unregister runtime " ++ id ++
          " in Director: received unexpected RuntimeID.")).SetComponent
          ErrCompassDirector).SetReason ErrDirectorRuntimeIDMismatch), cc1)
      else (none, cc1)

/-- The method `RuntimeExists`. -/
def RuntimeExists (env : Env) (id tenant : String) (cc : directorClient) :
    (Bool × Option AppError) × directorClient :=
  let runtimeQuery := env.getRuntimeQuery id
  match executeDirectorGraphQLCall env runtimeQuery tenant cc with
  | (.error err, cc1) =>
    if err.code = ErrCode.CodeBadRequest ∧ err.cause = CauseCode.TenantNotFound then
      ((false, none), cc1)
    else
      ((false, some (err.Append ("Failed to get runtime " ++ id ++ " from Director"))), cc1)
  | (.ok response, cc1) =>
    match response.Runtime with
    | none => ((false, none), cc1)
    | some _ => ((true, none), cc1)

/-- The method `SetRuntimeStatusCondition`. -/
def SetRuntimeStatusCondition (env : Env) (id : String)
    (statusCondition : graphql.RuntimeStatusCondition) (tenant : String) (cc : directorClient) :
    Option AppError × directorClient :=
  match GetRuntime env id tenant cc with
  | ((_, some err), cc1) => (some (err.Append "failed to get runtime by ID"), cc1)
  | ((runtime, none), cc1) =>
    let runtimeInput : graphql.RuntimeInput :=
      { Name := runtime.Name, Description := runtime.Description,
        StatusCondition := some statusCondition, Labels := runtime.Labels }
    match UpdateRuntime env id (some runtimeInput) tenant cc1 with
    | (some err, cc2) => (some (err.Append "failed to update runtime in Director"), cc2)
    | (none, cc2) => (none, cc2)

/-- The method `GetConnectionToken`. -/
def GetConnectionToken (env : Env) (id tenant : String) (cc : directorClient) :
    (graphql.OneTimeTokenForRuntimeExt × Option AppError) × directorClient :=
  let runtimeQuery := env.requestOneTimeTokeneMutation id
  match executeDirectorGraphQLCall env runtimeQuery tenant cc with
  | (.error err, cc1) =>
    ((graphql.OneTimeTokenForRuntimeExt.zero,
      some (err.Append ("Failed to get OneTimeToken for Runtime " ++ id ++ " in Director"))), cc1)
  | (.ok response, cc1) =>
    match response.OneTimeToken with
    | none =>
      ((graphql.OneTimeTokenForRuntimeExt.zero,
        some (((Internal ("Failed to get OneTimeToken for Runtime " ++ id ++
          " in Director: received nil response.")).SetComponent
          ErrCompassDirector).SetReason ErrDirectorNilResponse)), cc1)
    | some result => ((result, none), cc1)

/-- The token discipline of one remote call for the query `q` that finds the client
in state `cc` and leaves it in state `cc2`: the OAuth client is invoked once when the
cached token is empty or expired at the start of the call and not at all otherwise; a
cached token that is valid then is left as it is; and at most one request is handed
to the GraphQL client, for `q`, with the header `Authorization` set to `"Bearer "`
followed by the access token cached at that moment and the header `Tenant` set to
the tenant. -/
def tokenDiscipline (env : Env) (q tenant : String) (cc cc2 : directorClient) : Prop :=
  cc2.oauthCalls =
      (if env.EmptyOrExpired cc.tokenChecks cc.token then cc.oauthCalls + 1 else cc.oauthCalls) ∧
    (env.EmptyOrExpired cc.tokenChecks cc.token = false → cc2.token = cc.token) ∧
    (cc2.requests = cc.requests ∨
      ∃ req, cc2.requests = cc.requests ++ [req] ∧ req.query = q ∧
        req.HeaderGet AuthorizationHeader = some ("Bearer " ++ cc2.token.AccessToken) ∧
        req.HeaderGet TenantHeader = some tenant)

end director

namespace deprovisioning

open apperrors

/-- Modelled from the spec: the `Cluster` record (section 3), with the fields the stage
reads: identifier, owning tenant and the provider-specific name. The stage
`wait_for_cluster_deletion.go` and package `model` are not among the files. -/
structure Cluster where
  ID : String
  Tenant : String
  Name : String
  deriving DecidableEq, Repr

/-- Modelled from the spec: the name of a stage (package `model` is not among the
files). -/
abbrev OperationStage := String

/-- Modelled from the spec: the `Operation` record (section 3); the stage does not read
it. -/
structure Operation where
  ID : String
  Stage : OperationStage
  deriving DecidableEq, Repr

/-- Modelled from the spec: the stage constant `model.WaitForClusterDeletion`, the name
of the wait-for-cluster-deletion stage itself; its value is not in the sources. -/
def WaitForClusterDeletion : OperationStage := "WaitForClusterDeletion"

/-- The unit `time.Second` of `time.Duration`, in nanoseconds. -/
def Second : Int := 1000000000

/-- Modelled from the spec: the `StageResult` (section 3): next stage and delay. -/
structure StageResult where
  Stage : OperationStage
  Delay : Int
  deriving DecidableEq, Repr

/-- Modelled from the spec: the answer of the infra client to `Get(context, name)`
(section 6): an object, the not-found sentinel, or any other error. -/
inductive GetOutcome
  | present
  | notFound
  | failed (err : AppError)
  deriving DecidableEq, Repr

/-- Modelled from the spec: the persistence session (section 6): the answers of
`MarkClusterAsDeleted(id)` and of `Commit()`. -/
structure Session where
  MarkClusterAsDeleted : String → Option AppError
  Commit : Option AppError

/-- Modelled from the spec: the collaborators of the stage (section 6): infra client,
persistence session factory and the registry client interface. -/
structure Collaborators where
  Get : String → GetOutcome
  NewSessionWithinTransaction : Except AppError Session
  RuntimeExists : String → String → Bool × Option AppError
  DeleteRuntime : String → String → Option AppError

/-- Modelled from the spec: the calls a run of the stage makes on its collaborators,
in order. -/
inductive Call
  | Get (name : String)
  | NewSessionWithinTransaction
  | MarkClusterAsDeleted (id : String)
  | RuntimeExists (id tenant : String)
  | DeleteRuntime (id tenant : String)
  | Commit
  | RollbackUnlessCommitted
  deriving DecidableEq, Repr

/-- Modelled from the spec: the method `Run` of the wait-for-cluster-deletion stage
(`wait_for_cluster_deletion.go` is not among the files), following the five steps of section 4.4:
query the infra client; when the resource is gone open a transaction and mark the
cluster deleted; ask the registry whether the runtime exists and delete it when it
does; commit; advance to the next stage with no delay. The scoped rollback runs on
every exit once the session is open. Returns the result and the calls made. -/
def Run (c : Collaborators) (nextStep : OperationStage) (cluster : Cluster) (_operation : Operation) :
    Except AppError StageResult × List Call :=
  match c.Get cluster.Name with
  | .failed err => (.error (err.SetComponent ErrGardenerClient), [.Get cluster.Name])
  | .present =>
    (.ok { Stage := WaitForClusterDeletion, Delay := 20 * Second }, [.Get cluster.Name])
  | .notFound =>
    match c.NewSessionWithinTransaction with
    | .error dberr =>
      (.error (dberr.SetComponent ErrDB), [.Get cluster.Name, .NewSessionWithinTransaction])
    | .ok session =>
      match session.MarkClusterAsDeleted cluster.ID with
      | some dberr =>
        (.error (dberr.SetComponent ErrDB),
          [.Get cluster.Name, .NewSessionWithinTransaction, .MarkClusterAsDeleted cluster.ID,
           .RollbackUnlessCommitted])
      | none =>
        match c.RuntimeExists cluster.ID cluster.Tenant with
        | (_, some err) =>
          (.error err,
            [.Get cluster.Name, .NewSessionWithinTransaction, .MarkClusterAsDeleted cluster.ID,
             .RuntimeExists cluster.ID cluster.Tenant, .RollbackUnlessCommitted])
        | (false, none) =>
          match session.Commit with
          | some dberr =>
            (.error (dberr.SetComponent ErrDB),
              [.Get cluster.Name, .NewSessionWithinTransaction, .MarkClusterAsDeleted cluster.ID,
               .RuntimeExists cluster.ID cluster.Tenant, .Commit, .RollbackUnlessCommitted])
          | none =>
            (.ok { Stage := nextStep, Delay := 0 },
              [.Get cluster.Name, .NewSessionWithinTransaction, .MarkClusterAsDeleted cluster.ID,
               .RuntimeExists cluster.ID cluster.Tenant, .Commit, .RollbackUnlessCommitted])
        | (true, none) =>
          match c.DeleteRuntime cluster.ID cluster.Tenant with
          | some err =>
            (.error err,
              [.Get cluster.Name, .NewSessionWithinTransaction, .MarkClusterAsDeleted cluster.ID,
               .RuntimeExists cluster.ID cluster.Tenant, .DeleteRuntime cluster.ID cluster.Tenant,
               .RollbackUnlessCommitted])
          | none =>
            match session.Commit with
            | some dberr =>
              (.error (dberr.SetComponent ErrDB),
                [.Get cluster.Name, .NewSessionWithinTransaction, .MarkClusterAsDeleted cluster.ID,
                 .RuntimeExists cluster.ID cluster.Tenant, .DeleteRuntime cluster.ID cluster.Tenant,
                 .Commit, .RollbackUnlessCommitted])
            | none =>
              (.ok { Stage := nextStep, Delay := 0 },
                [.Get cluster.Name, .NewSessionWithinTransaction, .MarkClusterAsDeleted cluster.ID,
                 .RuntimeExists cluster.ID cluster.Tenant, .DeleteRuntime cluster.ID cluster.Tenant,
                 .Commit, .RollbackUnlessCommitted])

end deprovisioning

namespace samples

open apperrors director

/-- A rendering of the Director error types, for the concrete scenarios below. -/
def errorTypeString : directorApperrors.ErrorType → String
  | .InternalError => "InternalError"
  | .UnknownError => "UnknownError"
  | .InsufficientScopes => "InsufficientScopes"
  | .Unauthorized => "Unauthorized"
  | .NotFound => "NotFound"
  | .NotUnique => "NotUnique"
  | .InvalidData => "InvalidData"
  | .InvalidOperation => "InvalidOperation"
  | .TenantRequired => "TenantRequired"
  | .TenantNotFound => "TenantNotFound"
  | .other _ => "ErrorType"

/-- A concrete environment for the scenarios below: a graphqlizer that renders an
input by its name, a query provider that tags the queries, and the given OAuth
client, token check and GraphQL client. -/
def env (oauthClient : Nat → Except AppError oauth.Token) (expired : Nat → oauth.Token → Bool)
    (gqlClient : Nat → gcli.Request → DoOutcome) : Env :=
  { ErrorTypeString := errorTypeString
    RuntimeInputToGQL := fun input => .ok input.Name
    createRuntimeMutation := fun input => "create " ++ input
    getRuntimeQuery := fun id => "get " ++ id
    updateRuntimeMutation := fun id input => "update " ++ id ++ " " ++ input
    deleteRuntimeMutation := fun id => "delete " ++ id
    requestOneTimeTokeneMutation := fun id => "token " ++ id
    GetAuthorizationToken := oauthClient
    EmptyOrExpired := expired
    Do := gqlClient }

/-- A token that the sample token check accepts. -/
def goodToken : oauth.Token := { AccessToken := "secret", Expiration := 100 }

/-- A token check that rejects exactly the token without an access token. -/
def emptyCheck : Nat → oauth.Token → Bool := fun _ token => token.AccessToken == ""

/-- A fresh client, as `NewDirectorClient` builds it: the zero token, no interaction
yet. -/
def freshClient : directorClient :=
  { token := { AccessToken := "", Expiration := 0 }, tokenChecks := 0, oauthCalls := 0, requests := [] }

/-- A client that holds the good token. -/
def readyClient : directorClient :=
  { token := goodToken, tokenChecks := 0, oauthCalls := 0, requests := [] }

/-- An OAuth client that always hands out the good token. -/
def goodOAuth : Nat → Except AppError oauth.Token := fun _ => .ok goodToken

/-- The extended error the registry sends for a given error code. -/
def registryError (t : directorApperrors.ErrorType) : gcli.ExtendedError :=
  { Error := "graphql: tenant issue", error_code := some (.number t) }

/-- A runtime record as the registry returns it for `"runtimeID"`. -/
def runtime : graphql.RuntimeExt :=
  { ID := "runtimeID", Name := "runtime", Description := some "a runtime", Labels := some [("zone", "eu")] }

/-- A GraphQL client that fails every call with the given extended error. -/
def failing (egErr : gcli.ExtendedError) : Nat → gcli.Request → DoOutcome :=
  fun _ _ => .extendedError egErr

/-- A GraphQL client that answers its first call with the given runtime and fails
every later call with the given extended error. -/
def fetchThenFail (result : graphql.RuntimeExt) (egErr : gcli.ExtendedError) :
    Nat → gcli.Request → DoOutcome :=
  fun n _ => if n = 0 then .ok { Runtime := some result, OneTimeToken := none } else .extendedError egErr

/-- A GraphQL client that answers every call with the given runtime. -/
def answering (result : Option graphql.RuntimeExt) : Nat → gcli.Request → DoOutcome :=
  fun _ _ => .ok { Runtime := result, OneTimeToken := none }

/-- An OAuth client that always fails with the given error. -/
def failingOAuth (err : AppError) : Nat → Except AppError oauth.Token := fun _ => .error err

/-- An OAuth client that always hands out a token without an access token. -/
def emptyOAuth : Nat → Except AppError oauth.Token :=
  fun _ => .ok { AccessToken := "", Expiration := 0 }

/-- The cluster of the stage scenarios. -/
def cluster : deprovisioning.Cluster := { ID := "runtimeID", Tenant := "tenant", Name := "shoot" }

/-- A persistence session in which marking and commit succeed. -/
def session : deprovisioning.Session := { MarkClusterAsDeleted := fun _ => none, Commit := none }

/-- The collaborators of the stage scenarios: the given infra answer and registry
existence answer, a working persistence layer and a registry delete that succeeds. -/
def collaborators (get : deprovisioning.GetOutcome) (runtimeExists : Bool) :
    deprovisioning.Collaborators :=
  { Get := fun _ => get
    NewSessionWithinTransaction := .ok session
    RuntimeExists := fun _ _ => (runtimeExists, none)
    DeleteRuntime := fun _ _ => none }

/-- The sample environment whose rendering of the error types is the `String` method
of the Director library. -/
def directorEnv : Env :=
  { env goodOAuth emptyCheck (failing (registryError .UnknownError)) with
    ErrorTypeString := directorApperrors.ErrorType.String }

/-- A token check under which the cached token is still valid at the first check and
has expired by the second one; a token checked later is valid. -/
def expiringCheck : Nat → oauth.Token → Bool := fun n _ => n == 1

/-- The token the renewing OAuth client hands out. -/
def renewedToken : oauth.Token := { AccessToken := "renewed", Expiration := 200 }

/-- An OAuth client that always hands out the renewed token. -/
def renewingOAuth : Nat → Except AppError oauth.Token := fun _ => .ok renewedToken

/-- The provisioner config of a runtime named `"runtime"`. -/
def config : gqlschema.RuntimeInput :=
  { Name := "runtime", Description := none, Labels := none }

end samples

namespace director

open apperrors

/-! Error mapping and the existence check -/

theorem refreshToken_valid (env : Env) (cc : directorClient)
    (h : env.EmptyOrExpired cc.tokenChecks cc.token = false) :
    refreshToken env cc = (none, { cc with tokenChecks := cc.tokenChecks + 1 }) := by
  simp [refreshToken, h]

theorem executeDirectorGraphQLCall_extended (env : Env) (q tenant : String) (cc cc1 : directorClient)
    (egErr : gcli.ExtendedError)
    (hTok : refreshToken env cc = (none, cc1))
    (hDo : env.Do cc1.requests.length (newDirectorRequest q tenant cc1.token) = .extendedError egErr) :
    executeDirectorGraphQLCall env q tenant cc =
      (.error ((mapDirectorErrorToProvisionerError env egErr).Append
        "Failed to execute GraphQL request to Director"),
       { cc1 with requests := cc1.requests ++ [newDirectorRequest q tenant cc1.token] }) := by
  simp [executeDirectorGraphQLCall, hTok, hDo]

/-- C1: when the remote call made by `RuntimeExists` fails with an extended error whose
`error_code` is tenant-not-found, `RuntimeExists` returns `(false, nil)`. -/
theorem RuntimeExists_tenant_not_found (env : Env) (id tenant : String) (cc cc1 : directorClient)
    (egErr : gcli.ExtendedError)
    (hTok : refreshToken env cc = (none, cc1))
    (hDo : env.Do cc1.requests.length (newDirectorRequest (env.getRuntimeQuery id) tenant cc1.token)
      = .extendedError egErr)
    (hCode : egErr.error_code = some (.number .TenantNotFound)) :
    (RuntimeExists env id tenant cc).1 = (false, none) := by
  simp [RuntimeExists, executeDirectorGraphQLCall_extended env _ tenant cc cc1 egErr hTok hDo,
    mapDirectorErrorToProvisionerError, hCode, InvalidTenant, errorf, AppError.Append,
    AppError.SetComponent, AppError.SetReason]

theorem RuntimeExists_tenant_not_found_witness :
    (RuntimeExists
      (samples.env samples.goodOAuth samples.emptyCheck
        (fun _ _ => .extendedError (samples.registryError .TenantNotFound)))
      "runtimeID" "tenant" samples.freshClient).1 = (false, none) :=
  RuntimeExists_tenant_not_found _ "runtimeID" "tenant" samples.freshClient
    { token := samples.goodToken, tokenChecks := 2, oauthCalls := 1, requests := [] }
    (samples.registryError .TenantNotFound) (by decide) rfl rfl

theorem Append_code (ae : AppError) (m : String) : (ae.Append m).code = ae.code := rfl

theorem Append_cause (ae : AppError) (m : String) : (ae.Append m).cause = ae.cause := rfl

theorem Append_component (ae : AppError) (m : String) :
    (ae.Append m).component = ae.component := rfl

theorem Append_reason (ae : AppError) (m : String) : (ae.Append m).reason = ae.reason := rfl

theorem Append_message (ae : AppError) (m : String) :
    (ae.Append m).message = m ++ ", " ++ ae.message := rfl

theorem mapDirectorError_invalidTenant_iff (env : Env) (egErr : gcli.ExtendedError) :
    ((mapDirectorErrorToProvisionerError env egErr).code = ErrCode.CodeBadRequest ∧
      (mapDirectorErrorToProvisionerError env egErr).cause = CauseCode.TenantNotFound) ↔
    (egErr.error_code = some (.number .TenantRequired) ∨
      egErr.error_code = some (.number .TenantNotFound)) := by
  obtain ⟨msg, ec⟩ := egErr
  rcases ec with _ | (t | _)
  · simp [mapDirectorErrorToProvisionerError, Internal, errorf]
  · cases t <;>
      simp [mapDirectorErrorToProvisionerError, Internal, BadGateway, BadRequest, InvalidTenant,
        errorf, AppError.SetComponent, AppError.SetReason]
  · simp [mapDirectorErrorToProvisionerError, Internal, errorf]

/-- C2 (as stated, refuted): the registry answers the get-runtime query with the error
code tenant-required, the underlying call fails, and `RuntimeExists` still returns
`(false, nil)`. -/
theorem RuntimeExists_tenant_required_absent :
    (samples.env samples.goodOAuth samples.emptyCheck
        (fun _ _ => .extendedError (samples.registryError .TenantRequired))).Do 0
      (newDirectorRequest "get runtimeID" "tenant" samples.goodToken)
        = .extendedError (samples.registryError .TenantRequired) ∧
    (executeDirectorGraphQLCall
      (samples.env samples.goodOAuth samples.emptyCheck
        (fun _ _ => .extendedError (samples.registryError .TenantRequired)))
      "get runtimeID" "tenant" samples.readyClient).1 =
        .error { code := .CodeBadRequest, cause := .TenantNotFound, component := ErrCompassDirector,
                 reason := "TenantRequired",
                 message := "Failed to execute GraphQL request to Director, graphql: tenant issue" } ∧
    (RuntimeExists
      (samples.env samples.goodOAuth samples.emptyCheck
        (fun _ _ => .extendedError (samples.registryError .TenantRequired)))
      "runtimeID" "tenant" samples.readyClient).1 = (false, none) := by
  exact ⟨rfl, rfl, rfl⟩

/-- C2 (amended): whenever the underlying call of `RuntimeExists` fails for a reason
other than an invalid-tenant classification, namely a token refresh that fails with
an error not classified bad-request/tenant-not-found, a refreshed token that is empty
or expired, a transport error, or a registry error whose `error_code` is missing, not
a number, or any code other than tenant-required and tenant-not-found, `RuntimeExists`
returns `(false, err)` with a non-nil error. -/
theorem RuntimeExists_other_failure (env : Env) (id tenant : String) (cc : directorClient)
    (h :
      (env.EmptyOrExpired cc.tokenChecks cc.token = true ∧
        ∃ oe, env.GetAuthorizationToken cc.oauthCalls = .error oe ∧
          ¬ (oe.code = ErrCode.CodeBadRequest ∧ oe.cause = CauseCode.TenantNotFound)) ∨
      (env.EmptyOrExpired cc.tokenChecks cc.token = true ∧
        ∃ token, env.GetAuthorizationToken cc.oauthCalls = .ok token ∧
          env.EmptyOrExpired (cc.tokenChecks + 1) token = true) ∨
      (∃ cc1, refreshToken env cc = (none, cc1) ∧
        ∃ msg, env.Do cc1.requests.length
          (newDirectorRequest (env.getRuntimeQuery id) tenant cc1.token) = .otherError msg) ∨
      (∃ cc1, refreshToken env cc = (none, cc1) ∧
        ∃ egErr, env.Do cc1.requests.length
          (newDirectorRequest (env.getRuntimeQuery id) tenant cc1.token) = .extendedError egErr ∧
          egErr.error_code ≠ some (.number .TenantRequired) ∧
          egErr.error_code ≠ some (.number .TenantNotFound))) :
    ∃ err, (RuntimeExists env id tenant cc).1 = (false, some err) := by
  rcases h with ⟨hExp, oe, hO, hne⟩ | ⟨hExp, token, hO, hExp2⟩ | ⟨cc1, hTok, msg, hDo⟩ |
    ⟨cc1, hTok, egErr, hDo, h1, h2⟩
  · have hne2 : ¬ (oe.code = ErrCode.CodeBadRequest ∧ oe.cause = CauseCode.TenantNotFound) := hne
    refine ⟨(oe.Append "Error while obtaining token").Append
      ("Failed to get runtime " ++ id ++ " from Director"), ?_⟩
    simp only [RuntimeExists, executeDirectorGraphQLCall, refreshToken, hExp, getToken, hO,
      if_true, Append_code, Append_cause, if_neg hne2]
  · refine ⟨(Internal "Obtained empty or expired token").Append
      ("Failed to get runtime " ++ id ++ " from Director"), ?_⟩
    simp [RuntimeExists, executeDirectorGraphQLCall, refreshToken, hExp, getToken, hO, hExp2,
      Internal, errorf, AppError.Append]
  · refine ⟨(Internal ("Failed to execute GraphQL request to Director: " ++ msg)).Append
      ("Failed to get runtime " ++ id ++ " from Director"), ?_⟩
    simp [RuntimeExists, executeDirectorGraphQLCall, hTok, hDo, Internal, errorf, AppError.Append]
  · have hne : ¬ ((mapDirectorErrorToProvisionerError env egErr).code = ErrCode.CodeBadRequest ∧
        (mapDirectorErrorToProvisionerError env egErr).cause = CauseCode.TenantNotFound) := by
      rw [mapDirectorError_invalidTenant_iff]
      exact fun h => h.elim h1 h2
    refine ⟨((mapDirectorErrorToProvisionerError env egErr).Append
      "Failed to execute GraphQL request to Director").Append
      ("Failed to get runtime " ++ id ++ " from Director"), ?_⟩
    simp only [RuntimeExists, executeDirectorGraphQLCall_extended env _ tenant cc cc1 egErr hTok hDo,
      Append_code, Append_cause, if_neg hne]

theorem RuntimeExists_other_failure_witness :
    ∃ err, (RuntimeExists
      (samples.env samples.goodOAuth samples.emptyCheck
        (fun _ _ => .extendedError (samples.registryError .NotFound)))
      "runtimeID" "tenant" samples.readyClient).1 = (false, some err) :=
  RuntimeExists_other_failure _ "runtimeID" "tenant" samples.readyClient
    (Or.inr (Or.inr (Or.inr
      ⟨{ token := samples.goodToken, tokenChecks := 1, oauthCalls := 0, requests := [] },
        by decide, samples.registryError .NotFound, rfl, by decide, by decide⟩)))

/-- C3: for an extended error with a numeric `error_code`, the mapped error is internal
for internal-error and unknown-error, bad-gateway for insufficient-scopes and
unauthorized, bad-request for not-found, not-unique, invalid-data and
invalid-operation, invalid-tenant (bad-request with cause tenant-not-found) for
tenant-required and tenant-not-found; in each case the component is the Director
component, the reason is the name of the remote code and the message is that of the
remote error. -/
theorem mapDirectorErrorToProvisionerError_categories (env : Env) (msg : String) :
    mapDirectorErrorToProvisionerError env { Error := msg, error_code := some (.number .InternalError) } =
      { code := .CodeInternal, cause := .Unknown, component := ErrCompassDirector,
        reason := env.ErrorTypeString .InternalError, message := msg } ∧
    mapDirectorErrorToProvisionerError env { Error := msg, error_code := some (.number .UnknownError) } =
      { code := .CodeInternal, cause := .Unknown, component := ErrCompassDirector,
        reason := env.ErrorTypeString .UnknownError, message := msg } ∧
    mapDirectorErrorToProvisionerError env { Error := msg, error_code := some (.number .InsufficientScopes) } =
      { code := .CodeBadGateway, cause := .Unknown, component := ErrCompassDirector,
        reason := env.ErrorTypeString .InsufficientScopes, message := msg } ∧
    mapDirectorErrorToProvisionerError env { Error := msg, error_code := some (.number .Unauthorized) } =
      { code := .CodeBadGateway, cause := .Unknown, component := ErrCompassDirector,
        reason := env.ErrorTypeString .Unauthorized, message := msg } ∧
    mapDirectorErrorToProvisionerError env { Error := msg, error_code := some (.number .NotFound) } =
      { code := .CodeBadRequest, cause := .Unknown, component := ErrCompassDirector,
        reason := env.ErrorTypeString .NotFound, message := msg } ∧
    mapDirectorErrorToProvisionerError env { Error := msg, error_code := some (.number .NotUnique) } =
      { code := .CodeBadRequest, cause := .Unknown, component := ErrCompassDirector,
        reason := env.ErrorTypeString .NotUnique, message := msg } ∧
    mapDirectorErrorToProvisionerError env { Error := msg, error_code := some (.number .InvalidData) } =
      { code := .CodeBadRequest, cause := .Unknown, component := ErrCompassDirector,
        reason := env.ErrorTypeString .InvalidData, message := msg } ∧
    mapDirectorErrorToProvisionerError env { Error := msg, error_code := some (.number .InvalidOperation) } =
      { code := .CodeBadRequest, cause := .Unknown, component := ErrCompassDirector,
        reason := env.ErrorTypeString .InvalidOperation, message := msg } ∧
    mapDirectorErrorToProvisionerError env { Error := msg, error_code := some (.number .TenantRequired) } =
      { code := .CodeBadRequest, cause := .TenantNotFound, component := ErrCompassDirector,
        reason := env.ErrorTypeString .TenantRequired, message := msg } ∧
    mapDirectorErrorToProvisionerError env { Error := msg, error_code := some (.number .TenantNotFound) } =
      { code := .CodeBadRequest, cause := .TenantNotFound, component := ErrCompassDirector,
        reason := env.ErrorTypeString .TenantNotFound, message := msg } := by
  simp [mapDirectorErrorToProvisionerError, Internal, BadGateway, BadRequest, InvalidTenant,
    errorf, AppError.SetComponent, AppError.SetReason]

/-! The single-call operations -/

theorem executeDirectorGraphQLCall_ok_iff (env : Env) (q tenant : String) (cc cc2 : directorClient)
    (response : ResponseData) :
    executeDirectorGraphQLCall env q tenant cc = (.ok response, cc2) ↔
      ∃ cc1, refreshToken env cc = (none, cc1) ∧
        env.Do cc1.requests.length (newDirectorRequest q tenant cc1.token) = .ok response ∧
        cc2 = { cc1 with requests := cc1.requests ++ [newDirectorRequest q tenant cc1.token] } := by
  constructor
  · intro h
    rcases hTok : refreshToken env cc with ⟨_ | err, cc1⟩
    · rcases hDo : env.Do cc1.requests.length (newDirectorRequest q tenant cc1.token) with r | e | m
      · simp only [executeDirectorGraphQLCall, hTok, hDo, Prod.mk.injEq, Except.ok.injEq] at h
        obtain ⟨rfl, rfl⟩ := h
        exact ⟨cc1, rfl, hDo, rfl⟩
      · simp [executeDirectorGraphQLCall, hTok, hDo] at h
      · simp [executeDirectorGraphQLCall, hTok, hDo] at h
    · simp [executeDirectorGraphQLCall, hTok] at h
  · rintro ⟨cc1, hTok, hDo, rfl⟩
    simp [executeDirectorGraphQLCall, hTok, hDo]

/-- C4: `GetRuntime` returns a record with no error exactly when the remote call
succeeds with a non-nil result whose ID is the requested id; the record is then that
result. A result with another ID yields an internal error with component Director
and reason runtime-ID-mismatch (not a bad-request), and with every error the record
returned is the empty record. -/
theorem GetRuntime_contract (env : Env) (id tenant : String) (cc : directorClient) :
    ((GetRuntime env id tenant cc).1.2 = none ↔
      ∃ cc1 response result, refreshToken env cc = (none, cc1) ∧
        env.Do cc1.requests.length (newDirectorRequest (env.getRuntimeQuery id) tenant cc1.token)
          = .ok response ∧
        response.Runtime = some result ∧ result.ID = id) ∧
    (∀ cc1 response result, refreshToken env cc = (none, cc1) →
        env.Do cc1.requests.length (newDirectorRequest (env.getRuntimeQuery id) tenant cc1.token)
          = .ok response →
        response.Runtime = some result →
        (result.ID = id → (GetRuntime env id tenant cc).1 = (result, none)) ∧
        (result.ID ≠ id → ∃ err, (GetRuntime env id tenant cc).1 = (graphql.RuntimeExt.zero, some err) ∧
          err.code = ErrCode.CodeInternal ∧ err.code ≠ ErrCode.CodeBadRequest ∧
          err.component = ErrCompassDirector ∧ err.reason = ErrDirectorRuntimeIDMismatch)) ∧
    ((GetRuntime env id tenant cc).1.2 ≠ none →
      (GetRuntime env id tenant cc).1.1 = graphql.RuntimeExt.zero) := by
  rcases hEx : executeDirectorGraphQLCall env (env.getRuntimeQuery id) tenant cc with ⟨err | response, cc2⟩
  · have hno : ∀ cc1 response, refreshToken env cc = (none, cc1) →
        env.Do cc1.requests.length (newDirectorRequest (env.getRuntimeQuery id) tenant cc1.token)
          = .ok response → False := by
      intro cc1 response h1 h2
      have := (executeDirectorGraphQLCall_ok_iff env (env.getRuntimeQuery id) tenant cc _ response).2
        ⟨cc1, h1, h2, rfl⟩
      rw [hEx] at this
      cases this
    refine ⟨?_, ?_, ?_⟩
    · simp only [GetRuntime, hEx]
      constructor
      · intro h
        cases h
      · rintro ⟨cc1, response, _, h1, h2, _⟩
        exact (hno cc1 response h1 h2).elim
    · intro cc1 response _ h1 h2
      exact (hno cc1 response h1 h2).elim
    · intro _
      simp only [GetRuntime, hEx]
  · obtain ⟨cc1, hTok, hDo, rfl⟩ :=
      (executeDirectorGraphQLCall_ok_iff env (env.getRuntimeQuery id) tenant cc cc2 response).1 hEx
    have huniq : ∀ cc3 response3, refreshToken env cc = (none, cc3) →
        env.Do cc3.requests.length (newDirectorRequest (env.getRuntimeQuery id) tenant cc3.token)
          = .ok response3 → response3 = response := by
      intro cc3 response3 h1 h2
      rw [hTok] at h1
      cases h1
      rw [hDo] at h2
      cases h2
      rfl
    rcases hR : response.Runtime with _ | result
    · refine ⟨?_, ?_, ?_⟩
      · simp only [GetRuntime, hEx, hR]
        constructor
        · intro h
          cases h
        · rintro ⟨cc3, response3, result3, h1, h2, h3, _⟩
          rw [huniq cc3 response3 h1 h2, hR] at h3
          cases h3
      · intro cc3 response3 result3 h1 h2 h3
        rw [huniq cc3 response3 h1 h2, hR] at h3
        cases h3
      · intro _
        simp only [GetRuntime, hEx, hR]
    · by_cases hid : result.ID = id
      · refine ⟨?_, ?_, ?_⟩
        · simp only [GetRuntime, hEx, hR, hid, bne_self_eq_false, Bool.false_eq_true, if_false,
            true_iff]
          exact ⟨cc1, response, result, hTok, hDo, hR, hid⟩
        · intro cc3 response3 result3 h1 h2 h3
          rw [huniq cc3 response3 h1 h2, hR] at h3
          cases h3
          refine ⟨fun _ => ?_, fun h => (h hid).elim⟩
          simp only [GetRuntime, hEx, hR, hid, bne_self_eq_false, Bool.false_eq_true, if_false]
        · intro h
          simp only [GetRuntime, hEx, hR, hid, bne_self_eq_false, Bool.false_eq_true, if_false] at h
          exact (h rfl).elim
      · have hb : (result.ID != id) = true := by simpa using hid
        refine ⟨?_, ?_, ?_⟩
        · simp only [GetRuntime, hEx, hR, hb, if_true]
          constructor
          · intro h
            cases h
          · rintro ⟨cc3, response3, result3, h1, h2, h3, h4⟩
            rw [huniq cc3 response3 h1 h2, hR] at h3
            cases h3
            exact (hid h4).elim
        · intro cc3 response3 result3 h1 h2 h3
          rw [huniq cc3 response3 h1 h2, hR] at h3
          cases h3
          refine ⟨fun h => (hid h).elim, fun _ => ?_⟩
          simp only [GetRuntime, hEx, hR, hb, if_true]
          exact ⟨_, rfl, rfl, by simp [Internal, errorf, AppError.SetComponent, AppError.SetReason], rfl, rfl⟩
        · intro _
          simp only [GetRuntime, hEx, hR, hb, if_true]

theorem GetRuntime_contract_witness :
    (GetRuntime
      (samples.env samples.goodOAuth samples.emptyCheck (samples.answering (some samples.runtime)))
      "runtimeID" "tenant" samples.readyClient).1 = (samples.runtime, none) ∧
    ∃ err, (GetRuntime
      (samples.env samples.goodOAuth samples.emptyCheck (samples.answering (some samples.runtime)))
      "otherID" "tenant" samples.readyClient).1 = (graphql.RuntimeExt.zero, some err) ∧
      err.code = ErrCode.CodeInternal ∧ err.code ≠ ErrCode.CodeBadRequest ∧
      err.component = ErrCompassDirector ∧ err.reason = ErrDirectorRuntimeIDMismatch :=
  ⟨((GetRuntime_contract
      (samples.env samples.goodOAuth samples.emptyCheck (samples.answering (some samples.runtime)))
      "runtimeID" "tenant" samples.readyClient).2.1
      { token := samples.goodToken, tokenChecks := 1, oauthCalls := 0, requests := [] }
      { Runtime := some samples.runtime, OneTimeToken := none } samples.runtime
      (by decide) rfl rfl).1 rfl,
   ((GetRuntime_contract
      (samples.env samples.goodOAuth samples.emptyCheck (samples.answering (some samples.runtime)))
      "otherID" "tenant" samples.readyClient).2.1
      { token := samples.goodToken, tokenChecks := 1, oauthCalls := 0, requests := [] }
      { Runtime := some samples.runtime, OneTimeToken := none } samples.runtime
      (by decide) rfl rfl).2 (by decide)⟩

/-! Context appended to remote errors -/

theorem wraps_refl (ae : AppError) : ae.wraps ae :=
  ⟨rfl, rfl, rfl, rfl, List.suffix_refl _⟩

theorem wraps_Append (outer original : AppError) (m : String) (h : outer.wraps original) :
    (outer.Append m).wraps original := by
  obtain ⟨h1, h2, h3, h4, h5⟩ := h
  refine ⟨h1, h2, h3, h4, ?_⟩
  have : (outer.Append m).message.data = (m ++ ", ").data ++ outer.message.data := by
    simp [AppError.Append, String.data_append]
  rw [this]
  exact h5.trans (List.suffix_append _ _)

theorem wraps_Append_Append (ae : AppError) (m1 m2 : String) :
    ((ae.Append m1).Append m2).wraps ae :=
  wraps_Append _ _ _ (wraps_Append _ _ _ (wraps_refl ae))

/-- C5: for `CreateRuntime`, `GetRuntime`, `UpdateRuntime`, `DeleteRuntime`,
`GetConnectionToken` and `SetRuntimeStatusCondition` (on its fetch and on its update),
when the remote call fails with an extended error `egErr`, the error handed to the
caller has the code, cause, component and reason of
`mapDirectorErrorToProvisionerError egErr`, and its message ends with the message of
that error. -/
theorem remote_error_keeps_classification (env : Env) (id tenant : String)
    (cc cc1 : directorClient) (egErr : gcli.ExtendedError)
    (hTok : refreshToken env cc = (none, cc1)) :
    (∀ config gqlInput,
      env.RuntimeInputToGQL
        { Name := config.Name, Description := config.Description, Labels := config.Labels,
          StatusCondition := none } = .ok gqlInput →
      env.Do cc1.requests.length
        (newDirectorRequest (env.createRuntimeMutation gqlInput) tenant cc1.token) = .extendedError egErr →
      ∃ err, (CreateRuntime env (some config) tenant cc).1 = ("", some err) ∧
        err.wraps (mapDirectorErrorToProvisionerError env egErr)) ∧
    (env.Do cc1.requests.length
        (newDirectorRequest (env.getRuntimeQuery id) tenant cc1.token) = .extendedError egErr →
      ∃ err, (GetRuntime env id tenant cc).1 = (graphql.RuntimeExt.zero, some err) ∧
        err.wraps (mapDirectorErrorToProvisionerError env egErr)) ∧
    (∀ directorInput gqlInput, env.RuntimeInputToGQL directorInput = .ok gqlInput →
      env.Do cc1.requests.length
        (newDirectorRequest (env.updateRuntimeMutation id gqlInput) tenant cc1.token) = .extendedError egErr →
      ∃ err, (UpdateRuntime env id (some directorInput) tenant cc).1 = some err ∧
        err.wraps (mapDirectorErrorToProvisionerError env egErr)) ∧
    (env.Do cc1.requests.length
        (newDirectorRequest (env.deleteRuntimeMutation id) tenant cc1.token) = .extendedError egErr →
      ∃ err, (DeleteRuntime env id tenant cc).1 = some err ∧
        err.wraps (mapDirectorErrorToProvisionerError env egErr)) ∧
    (env.Do cc1.requests.length
        (newDirectorRequest (env.requestOneTimeTokeneMutation id) tenant cc1.token) = .extendedError egErr →
      ∃ err, (GetConnectionToken env id tenant cc).1 = (graphql.OneTimeTokenForRuntimeExt.zero, some err) ∧
        err.wraps (mapDirectorErrorToProvisionerError env egErr)) ∧
    (∀ statusCondition, env.Do cc1.requests.length
        (newDirectorRequest (env.getRuntimeQuery id) tenant cc1.token) = .extendedError egErr →
      ∃ err, (SetRuntimeStatusCondition env id statusCondition tenant cc).1 = some err ∧
        err.wraps (mapDirectorErrorToProvisionerError env egErr)) ∧
    (∀ statusCondition runtime ccGet ccUpd gqlInput,
      GetRuntime env id tenant cc = ((runtime, none), ccGet) →
      env.RuntimeInputToGQL
        { Name := runtime.Name, Description := runtime.Description, Labels := runtime.Labels,
          StatusCondition := some statusCondition } = .ok gqlInput →
      refreshToken env ccGet = (none, ccUpd) →
      env.Do ccUpd.requests.length
        (newDirectorRequest (env.updateRuntimeMutation id gqlInput) tenant ccUpd.token) = .extendedError egErr →
      ∃ err, (SetRuntimeStatusCondition env id statusCondition tenant cc).1 = some err ∧
        err.wraps (mapDirectorErrorToProvisionerError env egErr)) := by
  refine ⟨?_, ?_, ?_, ?_, ?_, ?_, ?_⟩
  · intro config gqlInput hG hDo
    have hL : (match config.Labels with | some l => some l | none => none) = config.Labels := by
      cases config.Labels <;> rfl
    refine ⟨_, ?_, wraps_Append_Append (mapDirectorErrorToProvisionerError env egErr)
      "Failed to execute GraphQL request to Director"
      "Failed to register runtime in Director. Request failed"⟩
    simp only [CreateRuntime, hL, hG,
      executeDirectorGraphQLCall_extended env _ tenant cc cc1 egErr hTok hDo]
  · intro hDo
    refine ⟨_, ?_, wraps_Append_Append (mapDirectorErrorToProvisionerError env egErr)
      "Failed to execute GraphQL request to Director"
      ("Failed to get runtime " ++ id ++ " from Director")⟩
    simp only [GetRuntime, executeDirectorGraphQLCall_extended env _ tenant cc cc1 egErr hTok hDo]
  · intro directorInput gqlInput hG hDo
    refine ⟨_, ?_, wraps_Append_Append (mapDirectorErrorToProvisionerError env egErr)
      "Failed to execute GraphQL request to Director"
      ("Failed to update runtime " ++ id ++ " in Director")⟩
    simp only [UpdateRuntime, hG,
      executeDirectorGraphQLCall_extended env _ tenant cc cc1 egErr hTok hDo]
  · intro hDo
    refine ⟨_, ?_, wraps_Append_Append (mapDirectorErrorToProvisionerError env egErr)
      "Failed to execute GraphQL request to Director"
      ("Failed to unregister runtime " ++ id ++ " in Director")⟩
    simp only [DeleteRuntime, executeDirectorGraphQLCall_extended env _ tenant cc cc1 egErr hTok hDo]
  · intro hDo
    refine ⟨_, ?_, wraps_Append_Append (mapDirectorErrorToProvisionerError env egErr)
      "Failed to execute GraphQL request to Director"
      ("Failed to get OneTimeToken for Runtime " ++ id ++ " in Director")⟩
    simp only [GetConnectionToken,
      executeDirectorGraphQLCall_extended env _ tenant cc cc1 egErr hTok hDo]
  · intro statusCondition hDo
    refine ⟨_, ?_, wraps_Append _ _ "failed to get runtime by ID"
      (wraps_Append_Append (mapDirectorErrorToProvisionerError env egErr)
        "Failed to execute GraphQL request to Director"
        ("Failed to get runtime " ++ id ++ " from Director"))⟩
    simp only [SetRuntimeStatusCondition, GetRuntime,
      executeDirectorGraphQLCall_extended env _ tenant cc cc1 egErr hTok hDo]
  · intro statusCondition runtime ccGet ccUpd gqlInput hGet hG hTok2 hDo
    refine ⟨_, ?_, wraps_Append _ _ "failed to update runtime in Director"
      (wraps_Append_Append (mapDirectorErrorToProvisionerError env egErr)
        "Failed to execute GraphQL request to Director"
        ("Failed to update runtime " ++ id ++ " in Director"))⟩
    simp only [SetRuntimeStatusCondition, hGet, UpdateRuntime, hG,
      executeDirectorGraphQLCall_extended env _ tenant ccGet ccUpd egErr hTok2 hDo]

theorem remote_error_keeps_classification_witness :
    ((∃ err, (CreateRuntime
        (samples.env samples.goodOAuth samples.emptyCheck
          (samples.failing (samples.registryError .InvalidData)))
        (some samples.config) "tenant" samples.readyClient).1 = ("", some err) ∧
        err.wraps (mapDirectorErrorToProvisionerError
          (samples.env samples.goodOAuth samples.emptyCheck
            (samples.failing (samples.registryError .InvalidData)))
          (samples.registryError .InvalidData))) ∧
     (∃ err, (DeleteRuntime
        (samples.env samples.goodOAuth samples.emptyCheck
          (samples.failing (samples.registryError .InvalidData)))
        "runtimeID" "tenant" samples.readyClient).1 = some err ∧
        err.wraps (mapDirectorErrorToProvisionerError
          (samples.env samples.goodOAuth samples.emptyCheck
            (samples.failing (samples.registryError .InvalidData)))
          (samples.registryError .InvalidData)))) ∧
    (∃ err, (SetRuntimeStatusCondition
        (samples.env samples.goodOAuth samples.emptyCheck
          (samples.fetchThenFail samples.runtime (samples.registryError .Unauthorized)))
        "runtimeID" .CONNECTED "tenant" samples.readyClient).1 = some err ∧
        err.wraps (mapDirectorErrorToProvisionerError
          (samples.env samples.goodOAuth samples.emptyCheck
            (samples.fetchThenFail samples.runtime (samples.registryError .Unauthorized)))
          (samples.registryError .Unauthorized))) :=
  ⟨⟨(remote_error_keeps_classification
        (samples.env samples.goodOAuth samples.emptyCheck
          (samples.failing (samples.registryError .InvalidData)))
        "runtimeID" "tenant" samples.readyClient
        { token := samples.goodToken, tokenChecks := 1, oauthCalls := 0, requests := [] }
        (samples.registryError .InvalidData) (by decide)).1 samples.config "runtime" rfl rfl,
     (remote_error_keeps_classification
        (samples.env samples.goodOAuth samples.emptyCheck
          (samples.failing (samples.registryError .InvalidData)))
        "runtimeID" "tenant" samples.readyClient
        { token := samples.goodToken, tokenChecks := 1, oauthCalls := 0, requests := [] }
        (samples.registryError .InvalidData) (by decide)).2.2.2.1 rfl⟩,
   (remote_error_keeps_classification
      (samples.env samples.goodOAuth samples.emptyCheck
        (samples.fetchThenFail samples.runtime (samples.registryError .Unauthorized)))
      "runtimeID" "tenant" samples.readyClient
      { token := samples.goodToken, tokenChecks := 1, oauthCalls := 0, requests := [] }
      (samples.registryError .Unauthorized) (by decide)).2.2.2.2.2.2 .CONNECTED samples.runtime
      { token := samples.goodToken, tokenChecks := 1, oauthCalls := 0,
        requests := [newDirectorRequest "get runtimeID" "tenant" samples.goodToken] }
      { token := samples.goodToken, tokenChecks := 2, oauthCalls := 0,
        requests := [newDirectorRequest "get runtimeID" "tenant" samples.goodToken] }
      "runtime" (by decide) rfl (by decide) rfl⟩

/-! The compound operation -/

theorem refreshToken_requests (env : Env) (cc : directorClient) :
    (refreshToken env cc).2.requests = cc.requests := by
  unfold refreshToken getToken
  split
  · split
    · rfl
    · split <;> rfl
  · rfl

theorem executeDirectorGraphQLCall_state (env : Env) (q tenant : String) (cc cc1 : directorClient)
    (hTok : refreshToken env cc = (none, cc1)) :
    (executeDirectorGraphQLCall env q tenant cc).2 =
      { cc1 with requests := cc.requests ++ [newDirectorRequest q tenant cc1.token] } := by
  have hreq : cc1.requests = cc.requests := by
    have := refreshToken_requests env cc
    rw [hTok] at this
    exact this
  simp only [executeDirectorGraphQLCall, hTok, hreq]
  split <;> rfl

theorem executeDirectorGraphQLCall_requests (env : Env) (q tenant : String) (cc : directorClient) :
    (executeDirectorGraphQLCall env q tenant cc).2.requests = cc.requests ∨
    ∃ token, (executeDirectorGraphQLCall env q tenant cc).2.requests =
      cc.requests ++ [newDirectorRequest q tenant token] := by
  rcases hTok : refreshToken env cc with ⟨_ | err, cc1⟩
  · right
    exact ⟨cc1.token, by rw [executeDirectorGraphQLCall_state env q tenant cc cc1 hTok]⟩
  · left
    have := refreshToken_requests env cc
    rw [hTok] at this
    simp only [executeDirectorGraphQLCall, hTok]
    exact this

theorem GetRuntime_state (env : Env) (id tenant : String) (cc : directorClient) :
    (GetRuntime env id tenant cc).2 =
      (executeDirectorGraphQLCall env (env.getRuntimeQuery id) tenant cc).2 := by
  rcases hEx : executeDirectorGraphQLCall env (env.getRuntimeQuery id) tenant cc
    with ⟨err | response, cc2⟩
  · simp only [GetRuntime, hEx]
  · simp only [GetRuntime, hEx]
    split
    · rfl
    · split <;> rfl

theorem UpdateRuntime_state (env : Env) (id tenant : String) (cc : directorClient)
    (directorInput : graphql.RuntimeInput) (gqlInput : String)
    (hG : env.RuntimeInputToGQL directorInput = .ok gqlInput) :
    (UpdateRuntime env id (some directorInput) tenant cc).2 =
      (executeDirectorGraphQLCall env (env.updateRuntimeMutation id gqlInput) tenant cc).2 := by
  rcases hEx : executeDirectorGraphQLCall env (env.updateRuntimeMutation id gqlInput) tenant cc
    with ⟨err | response, cc2⟩
  · simp only [UpdateRuntime, hG, hEx]
  · simp only [UpdateRuntime, hG, hEx]
    split
    · rfl
    · split <;> rfl

/-- C6: when the fetch of `SetRuntimeStatusCondition` succeeds with record `r`, the
operation is exactly one `UpdateRuntime` for the same id and tenant on the input with
the name, description and labels of `r` and the given status condition (its error, if
any, handed on with context), and when that input serialises and the token is usable
the one request sent after the fetch is the update mutation for that input and
tenant; when the fetch fails the fetch error is handed on with context and no request
is sent beyond those of the fetch. -/
theorem SetRuntimeStatusCondition_contract (env : Env) (id : String)
    (statusCondition : graphql.RuntimeStatusCondition) (tenant : String) (cc : directorClient) :
    (∀ r ccGet, GetRuntime env id tenant cc = ((r, none), ccGet) →
      SetRuntimeStatusCondition env id statusCondition tenant cc =
        (((UpdateRuntime env id
            (some { Name := r.Name, Description := r.Description, Labels := r.Labels,
                    StatusCondition := some statusCondition }) tenant ccGet).1.map
            (fun err => err.Append "failed to update runtime in Director")),
         (UpdateRuntime env id
            (some { Name := r.Name, Description := r.Description, Labels := r.Labels,
                    StatusCondition := some statusCondition }) tenant ccGet).2) ∧
      (∀ gqlInput ccUpd,
        env.RuntimeInputToGQL
          { Name := r.Name, Description := r.Description, Labels := r.Labels,
            StatusCondition := some statusCondition } = .ok gqlInput →
        refreshToken env ccGet = (none, ccUpd) →
        (SetRuntimeStatusCondition env id statusCondition tenant cc).2.requests =
          ccGet.requests ++
            [newDirectorRequest (env.updateRuntimeMutation id gqlInput) tenant ccUpd.token])) ∧
    (∀ r err ccGet, GetRuntime env id tenant cc = ((r, some err), ccGet) →
      SetRuntimeStatusCondition env id statusCondition tenant cc =
        (some (err.Append "failed to get runtime by ID"), ccGet) ∧
      (ccGet.requests = cc.requests ∨
        ∃ token, ccGet.requests =
          cc.requests ++ [newDirectorRequest (env.getRuntimeQuery id) tenant token])) := by
  refine ⟨?_, ?_⟩
  · intro r ccGet hGet
    have hEq : SetRuntimeStatusCondition env id statusCondition tenant cc =
        (((UpdateRuntime env id
            (some { Name := r.Name, Description := r.Description, Labels := r.Labels,
                    StatusCondition := some statusCondition }) tenant ccGet).1.map
            (fun err => err.Append "failed to update runtime in Director")),
         (UpdateRuntime env id
            (some { Name := r.Name, Description := r.Description, Labels := r.Labels,
                    StatusCondition := some statusCondition }) tenant ccGet).2) := by
      simp only [SetRuntimeStatusCondition, hGet]
      rcases UpdateRuntime env id
        (some { Name := r.Name, Description := r.Description, Labels := r.Labels,
                StatusCondition := some statusCondition }) tenant ccGet with ⟨_ | err, cc2⟩ <;> rfl
    refine ⟨hEq, ?_⟩
    intro gqlInput ccUpd hG hTok
    rw [hEq]
    simp only []
    rw [UpdateRuntime_state env id tenant ccGet _ gqlInput hG,
      executeDirectorGraphQLCall_state env _ tenant ccGet ccUpd hTok]
  · intro r err ccGet hGet
    refine ⟨by simp only [SetRuntimeStatusCondition, hGet], ?_⟩
    have h1 := GetRuntime_state env id tenant cc
    rw [hGet] at h1
    have h2 := executeDirectorGraphQLCall_requests env (env.getRuntimeQuery id) tenant cc
    rw [← h1] at h2
    exact h2

theorem SetRuntimeStatusCondition_contract_witness :
    (SetRuntimeStatusCondition
      (samples.env samples.goodOAuth samples.emptyCheck (samples.answering (some samples.runtime)))
      "runtimeID" .CONNECTED "tenant" samples.readyClient).2.requests =
      [newDirectorRequest "get runtimeID" "tenant" samples.goodToken] ++
        [newDirectorRequest "update runtimeID runtime" "tenant" samples.goodToken] :=
  ((SetRuntimeStatusCondition_contract
      (samples.env samples.goodOAuth samples.emptyCheck (samples.answering (some samples.runtime)))
      "runtimeID" .CONNECTED "tenant" samples.readyClient).1 samples.runtime
      { token := samples.goodToken, tokenChecks := 1, oauthCalls := 0,
        requests := [newDirectorRequest "get runtimeID" "tenant" samples.goodToken] }
      (by decide)).2 "runtime"
      { token := samples.goodToken, tokenChecks := 2, oauthCalls := 0,
        requests := [newDirectorRequest "get runtimeID" "tenant" samples.goodToken] }
      rfl (by decide)

/-! Registration -/

theorem executeDirectorGraphQLCall_error_no_ok (env : Env) (q tenant : String)
    (cc cc2 : directorClient) (err : AppError)
    (hEx : executeDirectorGraphQLCall env q tenant cc = (.error err, cc2))
    (cc1 : directorClient) (response : ResponseData)
    (hTok : refreshToken env cc = (none, cc1))
    (hDo : env.Do cc1.requests.length (newDirectorRequest q tenant cc1.token) = .ok response) :
    False := by
  have := (executeDirectorGraphQLCall_ok_iff env q tenant cc _ response).2 ⟨cc1, hTok, hDo, rfl⟩
  rw [hEx] at this
  cases this

theorem executeDirectorGraphQLCall_ok_unique (env : Env) (q tenant : String)
    (cc cc2 : directorClient) (response : ResponseData)
    (hEx : executeDirectorGraphQLCall env q tenant cc = (.ok response, cc2))
    (cc1 : directorClient) (response1 : ResponseData)
    (hTok : refreshToken env cc = (none, cc1))
    (hDo : env.Do cc1.requests.length (newDirectorRequest q tenant cc1.token) = .ok response1) :
    response1 = response := by
  have := (executeDirectorGraphQLCall_ok_iff env q tenant cc _ response1).2 ⟨cc1, hTok, hDo, rfl⟩
  rw [hEx] at this
  cases this
  rfl

/-- C7: `CreateRuntime` with a nil config returns `("", bad-request)` and leaves the
client untouched (no token check, no token refresh, no remote call). With a config
whose input serialises it returns no error exactly when the remote call succeeds
with a non-nil result, and the identifier is then the ID of that result; a successful
call with a nil result yields the empty identifier and an internal error with
component Director and reason nil-response. -/
theorem CreateRuntime_contract (env : Env) (tenant : String) (cc : directorClient) :
    (∃ err, CreateRuntime env none tenant cc = (("", some err), cc) ∧
      err.code = ErrCode.CodeBadRequest ∧ err.cause = CauseCode.Unknown) ∧
    (∀ config gqlInput,
      env.RuntimeInputToGQL
        { Name := config.Name, Description := config.Description, Labels := config.Labels,
          StatusCondition := none } = .ok gqlInput →
      ((CreateRuntime env (some config) tenant cc).1.2 = none ↔
        ∃ cc1 response result, refreshToken env cc = (none, cc1) ∧
          env.Do cc1.requests.length
            (newDirectorRequest (env.createRuntimeMutation gqlInput) tenant cc1.token) = .ok response ∧
          response.Runtime = some result) ∧
      (∀ cc1 response, refreshToken env cc = (none, cc1) →
        env.Do cc1.requests.length
          (newDirectorRequest (env.createRuntimeMutation gqlInput) tenant cc1.token) = .ok response →
        (∀ result, response.Runtime = some result →
          (CreateRuntime env (some config) tenant cc).1 = (result.ID, none)) ∧
        (response.Runtime = none →
          ∃ err, (CreateRuntime env (some config) tenant cc).1 = ("", some err) ∧
            err.code = ErrCode.CodeInternal ∧ err.component = ErrCompassDirector ∧
            err.reason = ErrDirectorNilResponse))) := by
  refine ⟨⟨_, rfl, rfl, rfl⟩, ?_⟩
  intro config gqlInput hG
  have hL : (match config.Labels with | some l => some l | none => none) = config.Labels := by
    cases config.Labels <;> rfl
  rcases hEx : executeDirectorGraphQLCall env (env.createRuntimeMutation gqlInput) tenant cc
    with ⟨err | response, cc2⟩
  · have hno := executeDirectorGraphQLCall_error_no_ok env _ tenant cc cc2 err hEx
    refine ⟨?_, ?_⟩
    · simp only [CreateRuntime, hL, hG, hEx]
      constructor
      · intro h
        cases h
      · rintro ⟨cc1, response, _, h1, h2, _⟩
        exact (hno cc1 response h1 h2).elim
    · intro cc1 response h1 h2
      exact (hno cc1 response h1 h2).elim
  · have huniq := executeDirectorGraphQLCall_ok_unique env _ tenant cc cc2 response hEx
    obtain ⟨cc1, hTok, hDo, _⟩ :=
      (executeDirectorGraphQLCall_ok_iff env _ tenant cc cc2 response).1 hEx
    rcases hR : response.Runtime with _ | result
    · refine ⟨?_, ?_⟩
      · simp only [CreateRuntime, hL, hG, hEx, hR]
        constructor
        · intro h
          cases h
        · rintro ⟨cc3, response3, result3, h1, h2, h3⟩
          rw [huniq cc3 response3 h1 h2, hR] at h3
          cases h3
      · intro cc3 response3 h1 h2
        rw [huniq cc3 response3 h1 h2]
        refine ⟨fun result3 h3 => ?_, fun _ => ?_⟩
        · rw [hR] at h3
          cases h3
        · simp only [CreateRuntime, hL, hG, hEx, hR]
          exact ⟨_, rfl, rfl, rfl, rfl⟩
    · refine ⟨?_, ?_⟩
      · simp only [CreateRuntime, hL, hG, hEx, hR, true_iff]
        exact ⟨cc1, response, result, hTok, hDo, hR⟩
      · intro cc3 response3 h1 h2
        rw [huniq cc3 response3 h1 h2]
        refine ⟨fun result3 h3 => ?_, fun h3 => ?_⟩
        · rw [hR] at h3
          cases h3
          simp only [CreateRuntime, hL, hG, hEx, hR]
        · rw [hR] at h3
          cases h3

theorem CreateRuntime_contract_witness :
    (CreateRuntime
      (samples.env samples.goodOAuth samples.emptyCheck (samples.answering (some samples.runtime)))
      (some samples.config) "tenant" samples.readyClient).1 = ("runtimeID", none) ∧
    ∃ err, (CreateRuntime
      (samples.env samples.goodOAuth samples.emptyCheck (samples.answering none))
      (some samples.config) "tenant" samples.readyClient).1 = ("", some err) ∧
      err.code = ErrCode.CodeInternal ∧ err.component = ErrCompassDirector ∧
      err.reason = ErrDirectorNilResponse :=
  ⟨(((CreateRuntime_contract
      (samples.env samples.goodOAuth samples.emptyCheck (samples.answering (some samples.runtime)))
      "tenant" samples.readyClient).2 samples.config "runtime" rfl).2
      { token := samples.goodToken, tokenChecks := 1, oauthCalls := 0, requests := [] }
      { Runtime := some samples.runtime, OneTimeToken := none } (by decide) rfl).1
      samples.runtime rfl,
   (((CreateRuntime_contract
      (samples.env samples.goodOAuth samples.emptyCheck (samples.answering none))
      "tenant" samples.readyClient).2 samples.config "runtime" rfl).2
      { token := samples.goodToken, tokenChecks := 1, oauthCalls := 0, requests := [] }
      { Runtime := none, OneTimeToken := none } (by decide) rfl).2 rfl⟩

/-! Token refresh -/

theorem refreshToken_failure (env : Env) (cc : directorClient)
    (hExp : env.EmptyOrExpired cc.tokenChecks cc.token = true)
    (hO : (∃ oe, env.GetAuthorizationToken cc.oauthCalls = .error oe) ∨
      (∃ token, env.GetAuthorizationToken cc.oauthCalls = .ok token ∧
        env.EmptyOrExpired (cc.tokenChecks + 1) token = true)) :
    ∃ terr cc1, refreshToken env cc = (some terr, cc1) ∧ cc1.requests = cc.requests ∧
      cc1.token = cc.token ∧
      (∀ oe, env.GetAuthorizationToken cc.oauthCalls = .error oe →
        terr = oe.Append "Error while obtaining token") ∧
      (∀ token, env.GetAuthorizationToken cc.oauthCalls = .ok token →
        terr = Internal "Obtained empty or expired token") := by
  rcases hO with ⟨oe, hO⟩ | ⟨token, hO, hExp2⟩
  · refine ⟨oe.Append "Error while obtaining token",
      { cc with tokenChecks := cc.tokenChecks + 1, oauthCalls := cc.oauthCalls + 1 },
      by simp only [refreshToken, hExp, if_true, getToken, hO], rfl, rfl, ?_, ?_⟩
    · intro oe2 h
      rw [hO] at h
      cases h
      rfl
    · intro token h
      rw [hO] at h
      cases h
  · refine ⟨Internal "Obtained empty or expired token",
      { cc with tokenChecks := cc.tokenChecks + 1 + 1, oauthCalls := cc.oauthCalls + 1 },
      by simp only [refreshToken, hExp, if_true, getToken, hO, hExp2], rfl, rfl, ?_, ?_⟩
    · intro oe2 h
      rw [hO] at h
      cases h
    · intro _ _
      rfl

/-- C8 (as stated, refuted): with an empty cached token and an OAuth client failing
with an error classified bad-request/tenant-not-found, `RuntimeExists` does not fail
but returns `(false, nil)`; and with an OAuth client handing out an empty token,
`CreateRuntime` with a nil config fails with a bad-request error, not an internal
one. -/
theorem RuntimeExists_refresh_failure_absent :
    samples.emptyCheck 0 samples.freshClient.token = true ∧
    (RuntimeExists
      (samples.env (samples.failingOAuth (InvalidTenant "tenant unknown to the issuer"))
        samples.emptyCheck (samples.answering none))
      "runtimeID" "tenant" samples.freshClient).1 = (false, none) ∧
    samples.emptyOAuth 0 = .ok { AccessToken := "", Expiration := 0 } ∧
    (CreateRuntime
      (samples.env samples.emptyOAuth samples.emptyCheck (samples.answering none))
      none "tenant" samples.freshClient).1 =
        ("", some (BadRequest "Cannot register runtime in Director: missing Runtime config")) ∧
    (BadRequest "Cannot register runtime in Director: missing Runtime config").code ≠
      ErrCode.CodeInternal := by
  refine ⟨rfl, rfl, rfl, rfl, by decide⟩

/-- C8 (amended): if the cached token is empty or expired and the OAuth client fails or
hands out a token that is itself empty or expired, then every operation of the client
sends no request and leaves the cached token as it was, and every operation fails,
except that `RuntimeExists` returns `(false, nil)` when the error of the OAuth client
is itself classified bad-request/tenant-not-found. In the empty-or-expired case the
error is internal, for `CreateRuntime` and `UpdateRuntime` provided the input is
not nil. -/
theorem refresh_failure_blocks_call (env : Env) (id tenant : String) (cc : directorClient)
    (hExp : env.EmptyOrExpired cc.tokenChecks cc.token = true)
    (hO : (∃ oe, env.GetAuthorizationToken cc.oauthCalls = .error oe) ∨
      (∃ token, env.GetAuthorizationToken cc.oauthCalls = .ok token ∧
        env.EmptyOrExpired (cc.tokenChecks + 1) token = true)) :
    (∀ config,
      (CreateRuntime env config tenant cc).2.requests = cc.requests ∧
      (CreateRuntime env config tenant cc).2.token = cc.token ∧
      ∃ err, (CreateRuntime env config tenant cc).1 = ("", some err) ∧
        (config ≠ none → (∃ token, env.GetAuthorizationToken cc.oauthCalls = .ok token) →
          err.code = ErrCode.CodeInternal)) ∧
    ((GetRuntime env id tenant cc).2.requests = cc.requests ∧
      (GetRuntime env id tenant cc).2.token = cc.token ∧
      ∃ err, (GetRuntime env id tenant cc).1 = (graphql.RuntimeExt.zero, some err) ∧
        ((∃ token, env.GetAuthorizationToken cc.oauthCalls = .ok token) →
          err.code = ErrCode.CodeInternal)) ∧
    (∀ directorInput,
      (UpdateRuntime env id directorInput tenant cc).2.requests = cc.requests ∧
      (UpdateRuntime env id directorInput tenant cc).2.token = cc.token ∧
      ∃ err, (UpdateRuntime env id directorInput tenant cc).1 = some err ∧
        (directorInput ≠ none → (∃ token, env.GetAuthorizationToken cc.oauthCalls = .ok token) →
          err.code = ErrCode.CodeInternal)) ∧
    ((DeleteRuntime env id tenant cc).2.requests = cc.requests ∧
      (DeleteRuntime env id tenant cc).2.token = cc.token ∧
      ∃ err, (DeleteRuntime env id tenant cc).1 = some err ∧
        ((∃ token, env.GetAuthorizationToken cc.oauthCalls = .ok token) →
          err.code = ErrCode.CodeInternal)) ∧
    ((GetConnectionToken env id tenant cc).2.requests = cc.requests ∧
      (GetConnectionToken env id tenant cc).2.token = cc.token ∧
      ∃ err, (GetConnectionToken env id tenant cc).1 =
          (graphql.OneTimeTokenForRuntimeExt.zero, some err) ∧
        ((∃ token, env.GetAuthorizationToken cc.oauthCalls = .ok token) →
          err.code = ErrCode.CodeInternal)) ∧
    (∀ statusCondition,
      (SetRuntimeStatusCondition env id statusCondition tenant cc).2.requests = cc.requests ∧
      (SetRuntimeStatusCondition env id statusCondition tenant cc).2.token = cc.token ∧
      ∃ err, (SetRuntimeStatusCondition env id statusCondition tenant cc).1 = some err ∧
        ((∃ token, env.GetAuthorizationToken cc.oauthCalls = .ok token) →
          err.code = ErrCode.CodeInternal)) ∧
    ((RuntimeExists env id tenant cc).2.requests = cc.requests ∧
      (RuntimeExists env id tenant cc).2.token = cc.token ∧
      ((∀ oe, env.GetAuthorizationToken cc.oauthCalls = .error oe →
          ¬ (oe.code = ErrCode.CodeBadRequest ∧ oe.cause = CauseCode.TenantNotFound)) →
        ∃ err, (RuntimeExists env id tenant cc).1 = (false, some err) ∧
          ((∃ token, env.GetAuthorizationToken cc.oauthCalls = .ok token) →
            err.code = ErrCode.CodeInternal)) ∧
      (∀ oe, env.GetAuthorizationToken cc.oauthCalls = .error oe →
          oe.code = ErrCode.CodeBadRequest ∧ oe.cause = CauseCode.TenantNotFound →
        (RuntimeExists env id tenant cc).1 = (false, none))) := by
  obtain ⟨terr, cc1, hRef, hreq, htok, hE, hI⟩ := refreshToken_failure env cc hExp hO
  have hEx : ∀ q, executeDirectorGraphQLCall env q tenant cc = (.error terr, cc1) := by
    intro q
    simp only [executeDirectorGraphQLCall, hRef]
  have hInt : (∃ token, env.GetAuthorizationToken cc.oauthCalls = .ok token) →
      terr.code = ErrCode.CodeInternal := by
    rintro ⟨token, h⟩
    rw [hI token h]
    rfl
  refine ⟨?_, ?_, ?_, ?_, ?_, ?_, ?_⟩
  · intro config
    rcases config with _ | config
    · exact ⟨rfl, rfl, _, rfl, fun h => (h rfl).elim⟩
    · rcases hG : env.RuntimeInputToGQL
          { Name := config.Name, Description := config.Description,
            Labels := (match config.Labels with | some l => some l | none => none),
            StatusCondition := none } with e | g
      · simp only [CreateRuntime, hG]
        exact ⟨trivial, trivial, _, rfl, fun _ _ => rfl⟩
      · simp only [CreateRuntime, hG, hEx]
        exact ⟨hreq, htok, _, rfl, fun _ h => hInt h⟩
  · simp only [GetRuntime, hEx]
    exact ⟨hreq, htok, _, rfl, hInt⟩
  · intro directorInput
    rcases directorInput with _ | directorInput
    · exact ⟨rfl, rfl, _, rfl, fun h => (h rfl).elim⟩
    · rcases hG : env.RuntimeInputToGQL directorInput with e | g
      · simp only [UpdateRuntime, hG]
        exact ⟨trivial, trivial, _, rfl, fun _ _ => rfl⟩
      · simp only [UpdateRuntime, hG, hEx]
        exact ⟨hreq, htok, _, rfl, fun _ h => hInt h⟩
  · simp only [DeleteRuntime, hEx]
    exact ⟨hreq, htok, _, rfl, hInt⟩
  · simp only [GetConnectionToken, hEx]
    exact ⟨hreq, htok, _, rfl, hInt⟩
  · intro statusCondition
    simp only [SetRuntimeStatusCondition, GetRuntime, hEx]
    exact ⟨hreq, htok, _, rfl, hInt⟩
  · by_cases hc : terr.code = ErrCode.CodeBadRequest ∧ terr.cause = CauseCode.TenantNotFound
    · simp only [RuntimeExists, hEx, if_pos hc]
      refine ⟨hreq, htok, ?_, fun _ _ _ => trivial⟩
      intro hne
      rcases hO with ⟨oe, hO⟩ | ⟨token, hO, _⟩
      · have := hE oe hO
        rw [this] at hc
        exact (hne oe hO hc).elim
      · have := hInt ⟨token, hO⟩
        rw [this] at hc
        exact absurd hc.1 (by decide)
    · simp only [RuntimeExists, hEx, if_neg hc]
      refine ⟨hreq, htok, fun _ => ⟨_, rfl, hInt⟩, ?_⟩
      intro oe hO2 hoe
      have := hE oe hO2
      rw [this] at hc
      exact (hc hoe).elim

theorem refresh_failure_blocks_call_witness :
    (DeleteRuntime
      (samples.env samples.emptyOAuth samples.emptyCheck (samples.answering (some samples.runtime)))
      "runtimeID" "tenant" samples.freshClient).2.requests = [] ∧
    ∃ err, (DeleteRuntime
      (samples.env samples.emptyOAuth samples.emptyCheck (samples.answering (some samples.runtime)))
      "runtimeID" "tenant" samples.freshClient).1 = some err ∧
      ((∃ token, samples.emptyOAuth 0 = .ok token) → err.code = ErrCode.CodeInternal) :=
  have h := (refresh_failure_blocks_call
    (samples.env samples.emptyOAuth samples.emptyCheck (samples.answering (some samples.runtime)))
    "runtimeID" "tenant" samples.freshClient rfl
    (Or.inr ⟨{ AccessToken := "", Expiration := 0 }, rfl, rfl⟩)).2.2.2.1
  ⟨h.1, h.2.2⟩

end director

namespace deprovisioning

open apperrors

/-- C9: when the infra client returns an object with no error, `Run` returns the
wait-for-cluster-deletion stage itself with a delay of 20 seconds and no error, and
its only call is the infra `Get`: no persistence session is opened and the registry
client is not called. -/
theorem Run_waits_while_present (c : Collaborators) (nextStep : OperationStage) (cluster : Cluster)
    (operation : Operation) (hGet : c.Get cluster.Name = .present) :
    Run c nextStep cluster operation =
      (.ok { Stage := WaitForClusterDeletion, Delay := 20000000000 }, [.Get cluster.Name]) := by
  simp only [Run, hGet]
  rfl

theorem Run_waits_while_present_witness :
    Run (samples.collaborators .present true) "next" samples.cluster { ID := "op", Stage := "x" } =
      (.ok { Stage := WaitForClusterDeletion, Delay := 20000000000 }, [.Get "shoot"]) :=
  Run_waits_while_present (samples.collaborators .present true) "next" samples.cluster
    { ID := "op", Stage := "x" } rfl

/-- C10: when the infra client reports not-found, the session opens, marking the
cluster deleted succeeds and the commit succeeds: if the registry says the runtime
does not exist, `Run` returns the next stage with delay 0 and never calls the
registry delete; if it says the runtime exists and the delete succeeds, `Run` calls
the delete with the id and tenant of the cluster (and with nothing else) and returns
the next stage with delay 0. -/
theorem Run_advances_when_gone (c : Collaborators) (nextStep : OperationStage) (cluster : Cluster)
    (operation : Operation) (session : Session)
    (hGet : c.Get cluster.Name = .notFound)
    (hSession : c.NewSessionWithinTransaction = .ok session)
    (hMark : session.MarkClusterAsDeleted cluster.ID = none)
    (hCommit : session.Commit = none) :
    (c.RuntimeExists cluster.ID cluster.Tenant = (false, none) →
      (Run c nextStep cluster operation).1 = .ok { Stage := nextStep, Delay := 0 } ∧
      ∀ id tenant, Call.DeleteRuntime id tenant ∉ (Run c nextStep cluster operation).2) ∧
    (c.RuntimeExists cluster.ID cluster.Tenant = (true, none) →
      c.DeleteRuntime cluster.ID cluster.Tenant = none →
      (Run c nextStep cluster operation).1 = .ok { Stage := nextStep, Delay := 0 } ∧
      ((Run c nextStep cluster operation).2.filter
          (fun call => match call with | .DeleteRuntime _ _ => true | _ => false)) =
        [.DeleteRuntime cluster.ID cluster.Tenant]) := by
  refine ⟨?_, ?_⟩
  · intro hExists
    simp [Run, hGet, hSession, hMark, hExists, hCommit]
  · intro hExists hDelete
    simp [Run, hGet, hSession, hMark, hExists, hDelete, hCommit]

theorem Run_advances_when_gone_witness :
    ((Run (samples.collaborators .notFound false) "next" samples.cluster
        { ID := "op", Stage := "x" }).1 = .ok { Stage := "next", Delay := 0 } ∧
      ∀ id tenant, Call.DeleteRuntime id tenant ∉
        (Run (samples.collaborators .notFound false) "next" samples.cluster
          { ID := "op", Stage := "x" }).2) ∧
    ((Run (samples.collaborators .notFound true) "next" samples.cluster
        { ID := "op", Stage := "x" }).1 = .ok { Stage := "next", Delay := 0 } ∧
      ((Run (samples.collaborators .notFound true) "next" samples.cluster
          { ID := "op", Stage := "x" }).2.filter
          (fun call => match call with | .DeleteRuntime _ _ => true | _ => false)) =
        [.DeleteRuntime "runtimeID" "tenant"]) :=
  ⟨(Run_advances_when_gone (samples.collaborators .notFound false) "next" samples.cluster
      { ID := "op", Stage := "x" } samples.session rfl rfl rfl rfl).1 rfl,
   (Run_advances_when_gone (samples.collaborators .notFound true) "next" samples.cluster
      { ID := "op", Stage := "x" } samples.session rfl rfl rfl rfl).2 rfl rfl⟩

end deprovisioning

namespace director

open apperrors

/-! Unrecognised error codes -/

theorem mapDirectorError_reason_number (env : Env) (msg : String) (t : directorApperrors.ErrorType) :
    (mapDirectorErrorToProvisionerError env { Error := msg, error_code := some (.number t) }).reason =
      env.ErrorTypeString t := by
  cases t <;> rfl

theorem unnamed_rendering_head (text : String) :
    ("ErrorType(" ++ text ++ ")").data.head? = some 'E' := by
  simp [String.data_append]

theorem ErrorTypeString_other_ne (n : Int) (t : directorApperrors.ErrorType)
    (ht : t ∈ [directorApperrors.ErrorType.InternalError, .UnknownError, .InsufficientScopes,
      .Unauthorized, .NotFound, .NotUnique, .InvalidData, .InvalidOperation, .TenantRequired,
      .TenantNotFound]) :
    directorApperrors.ErrorType.String (.other n) ≠ directorApperrors.ErrorType.String t := by
  intro h
  have h2 := congrArg (fun text => text.data.head?) h
  simp only [directorApperrors.ErrorType.String, unnamed_rendering_head] at h2
  simp only [List.mem_cons, List.mem_singleton, List.not_mem_nil, or_false] at ht
  rcases ht with rfl | rfl | rfl | rfl | rfl | rfl | rfl | rfl | rfl | rfl <;>
    exact absurd h2 (by decide)

/-- C11: with the `String` method of the Director library, an extended error whose
numeric `error_code` is none of the ten recognised codes is mapped to an internal
error with the Director component and the message "Did not recognize the error code
..." followed by the remote message, whose reason is the rendering of the unnamed
code and differs from the reason produced for each of the ten recognised codes. -/
theorem mapDirectorErrorToProvisionerError_unrecognized (env : Env) (msg : String) (n : Int)
    (hString : env.ErrorTypeString = directorApperrors.ErrorType.String) :
    mapDirectorErrorToProvisionerError env { Error := msg, error_code := some (.number (.other n)) } =
      { code := .CodeInternal, cause := .Unknown, component := ErrCompassDirector,
        reason := "ErrorType(" ++ toString n ++ ")",
        message := "Did not recognize the error code from the error response. Original error: " ++
          msg } ∧
    ∀ t ∈ [directorApperrors.ErrorType.InternalError, .UnknownError, .InsufficientScopes,
        .Unauthorized, .NotFound, .NotUnique, .InvalidData, .InvalidOperation, .TenantRequired,
        .TenantNotFound],
      ∀ msg2,
        (mapDirectorErrorToProvisionerError env
          { Error := msg, error_code := some (.number (.other n)) }).reason ≠
        (mapDirectorErrorToProvisionerError env
          { Error := msg2, error_code := some (.number t) }).reason := by
  refine ⟨?_, ?_⟩
  · simp only [mapDirectorErrorToProvisionerError, hString, directorApperrors.ErrorType.String,
      Internal, errorf, AppError.SetComponent, AppError.SetReason]
  · intro t ht msg2
    rw [mapDirectorError_reason_number, mapDirectorError_reason_number, hString]
    exact ErrorTypeString_other_ne n t ht

theorem mapDirectorErrorToProvisionerError_unrecognized_witness :
    (mapDirectorErrorToProvisionerError samples.directorEnv
      { Error := "graphql: odd", error_code := some (.number (.other 99)) }).code =
        ErrCode.CodeInternal ∧
    (mapDirectorErrorToProvisionerError samples.directorEnv
      { Error := "graphql: odd", error_code := some (.number (.other 99)) }).reason ≠
    (mapDirectorErrorToProvisionerError samples.directorEnv
      { Error := "graphql: unknown", error_code := some (.number .UnknownError) }).reason :=
  ⟨congrArg AppError.code
      (mapDirectorErrorToProvisionerError_unrecognized samples.directorEnv "graphql: odd" 99 rfl).1,
   (mapDirectorErrorToProvisionerError_unrecognized samples.directorEnv "graphql: odd" 99 rfl).2
      .UnknownError (by decide) "graphql: unknown"⟩

/-! Update and unregistration -/

/-- C12: `UpdateRuntime` with a nil input fails bad-request and leaves the client
untouched (no remote call). `UpdateRuntime` on an input that serialises, and
`DeleteRuntime`, return no error exactly when the remote call succeeds with a non-nil
result whose ID is the requested id; a nil result yields an internal error with
reason nil-response and a result with another ID an internal error with reason
runtime-ID-mismatch, both with the Director component. -/
theorem UpdateRuntime_DeleteRuntime_contract (env : Env) (id tenant : String) (cc : directorClient) :
    (∃ err, UpdateRuntime env id none tenant cc = (some err, cc) ∧
      err.code = ErrCode.CodeBadRequest ∧ err.cause = CauseCode.Unknown) ∧
    (∀ directorInput gqlInput, env.RuntimeInputToGQL directorInput = .ok gqlInput →
      ((UpdateRuntime env id (some directorInput) tenant cc).1 = none ↔
        ∃ cc1 response result, refreshToken env cc = (none, cc1) ∧
          env.Do cc1.requests.length
            (newDirectorRequest (env.updateRuntimeMutation id gqlInput) tenant cc1.token) = .ok response ∧
          response.Runtime = some result ∧ result.ID = id) ∧
      (∀ cc1 response, refreshToken env cc = (none, cc1) →
        env.Do cc1.requests.length
          (newDirectorRequest (env.updateRuntimeMutation id gqlInput) tenant cc1.token) = .ok response →
        (response.Runtime = none →
          ∃ err, (UpdateRuntime env id (some directorInput) tenant cc).1 = some err ∧
            err.code = ErrCode.CodeInternal ∧ err.component = ErrCompassDirector ∧
            err.reason = ErrDirectorNilResponse) ∧
        (∀ result, response.Runtime = some result → result.ID ≠ id →
          ∃ err, (UpdateRuntime env id (some directorInput) tenant cc).1 = some err ∧
            err.code = ErrCode.CodeInternal ∧ err.component = ErrCompassDirector ∧
            err.reason = ErrDirectorRuntimeIDMismatch))) ∧
    (
      ((DeleteRuntime env id tenant cc).1 = none ↔
        ∃ cc1 response result, refreshToken env cc = (none, cc1) ∧
          env.Do cc1.requests.length
            (newDirectorRequest (env.deleteRuntimeMutation id) tenant cc1.token) = .ok response ∧
          response.Runtime = some result ∧ result.ID = id) ∧
      (∀ cc1 response, refreshToken env cc = (none, cc1) →
        env.Do cc1.requests.length
          (newDirectorRequest (env.deleteRuntimeMutation id) tenant cc1.token) = .ok response →
        (response.Runtime = none →
          ∃ err, (DeleteRuntime env id tenant cc).1 = some err ∧
            err.code = ErrCode.CodeInternal ∧ err.component = ErrCompassDirector ∧
            err.reason = ErrDirectorNilResponse) ∧
        (∀ result, response.Runtime = some result → result.ID ≠ id →
          ∃ err, (DeleteRuntime env id tenant cc).1 = some err ∧
            err.code = ErrCode.CodeInternal ∧ err.component = ErrCompassDirector ∧
            err.reason = ErrDirectorRuntimeIDMismatch))) := by
  refine ⟨⟨_, rfl, rfl, rfl⟩, ?_, ?_⟩
  · intro directorInput gqlInput hG
    rcases hEx : executeDirectorGraphQLCall env (env.updateRuntimeMutation id gqlInput) tenant cc
      with ⟨err | response, cc2⟩
    · have hno := executeDirectorGraphQLCall_error_no_ok env _ tenant cc cc2 err hEx
      refine ⟨?_, ?_⟩
      · simp only [UpdateRuntime, hG, hEx]
        constructor
        · intro h
          cases h
        · rintro ⟨cc1, response, _, h1, h2, _⟩
          exact (hno cc1 response h1 h2).elim
      · intro cc1 response h1 h2
        exact (hno cc1 response h1 h2).elim
    · have huniq := executeDirectorGraphQLCall_ok_unique env _ tenant cc cc2 response hEx
      obtain ⟨cc1, hTok, hDo, _⟩ :=
        (executeDirectorGraphQLCall_ok_iff env _ tenant cc cc2 response).1 hEx
      rcases hR : response.Runtime with _ | result
      · refine ⟨?_, ?_⟩
        · simp only [UpdateRuntime, hG, hEx, hR]
          constructor
          · intro h
            cases h
          · rintro ⟨cc3, response3, result3, h1, h2, h3, _⟩
            rw [huniq cc3 response3 h1 h2, hR] at h3
            cases h3
        · intro cc3 response3 h1 h2
          rw [huniq cc3 response3 h1 h2]
          refine ⟨fun _ => ?_, fun result3 h3 _ => ?_⟩
          · simp only [UpdateRuntime, hG, hEx, hR]
            exact ⟨_, rfl, rfl, rfl, rfl⟩
          · rw [hR] at h3
            cases h3
      · by_cases hid : result.ID = id
        · refine ⟨?_, ?_⟩
          · simp only [UpdateRuntime, hG, hEx, hR, hid, bne_self_eq_false, Bool.false_eq_true,
              if_false, true_iff]
            exact ⟨cc1, response, result, hTok, hDo, hR, hid⟩
          · intro cc3 response3 h1 h2
            rw [huniq cc3 response3 h1 h2]
            refine ⟨fun h3 => ?_, fun result3 h3 hne => ?_⟩
            · rw [hR] at h3
              cases h3
            · rw [hR] at h3
              cases h3
              exact (hne hid).elim
        · have hb : (result.ID != id) = true := by simpa using hid
          refine ⟨?_, ?_⟩
          · simp only [UpdateRuntime, hG, hEx, hR, hb, if_true]
            constructor
            · intro h
              cases h
            · rintro ⟨cc3, response3, result3, h1, h2, h3, h4⟩
              rw [huniq cc3 response3 h1 h2, hR] at h3
              cases h3
              exact (hid h4).elim
          · intro cc3 response3 h1 h2
            rw [huniq cc3 response3 h1 h2]
            refine ⟨fun h3 => ?_, fun result3 h3 _ => ?_⟩
            · rw [hR] at h3
              cases h3
            · rw [hR] at h3
              cases h3
              simp only [UpdateRuntime, hG, hEx, hR, hb, if_true]
              exact ⟨_, rfl, rfl, rfl, rfl⟩
  · rcases hEx : executeDirectorGraphQLCall env (env.deleteRuntimeMutation id) tenant cc
      with ⟨err | response, cc2⟩
    · have hno := executeDirectorGraphQLCall_error_no_ok env _ tenant cc cc2 err hEx
      refine ⟨?_, ?_⟩
      · simp only [DeleteRuntime, hEx]
        constructor
        · intro h
          cases h
        · rintro ⟨cc1, response, _, h1, h2, _⟩
          exact (hno cc1 response h1 h2).elim
      · intro cc1 response h1 h2
        exact (hno cc1 response h1 h2).elim
    · have huniq := executeDirectorGraphQLCall_ok_unique env _ tenant cc cc2 response hEx
      obtain ⟨cc1, hTok, hDo, _⟩ :=
        (executeDirectorGraphQLCall_ok_iff env _ tenant cc cc2 response).1 hEx
      rcases hR : response.Runtime with _ | result
      · refine ⟨?_, ?_⟩
        · simp only [DeleteRuntime, hEx, hR]
          constructor
          · intro h
            cases h
          · rintro ⟨cc3, response3, result3, h1, h2, h3, _⟩
            rw [huniq cc3 response3 h1 h2, hR] at h3
            cases h3
        · intro cc3 response3 h1 h2
          rw [huniq cc3 response3 h1 h2]
          refine ⟨fun _ => ?_, fun result3 h3 _ => ?_⟩
          · simp only [DeleteRuntime, hEx, hR]
            exact ⟨_, rfl, rfl, rfl, rfl⟩
          · rw [hR] at h3
            cases h3
      · by_cases hid : result.ID = id
        · refine ⟨?_, ?_⟩
          · simp only [DeleteRuntime, hEx, hR, hid, bne_self_eq_false, Bool.false_eq_true,
              if_false, true_iff]
            exact ⟨cc1, response, result, hTok, hDo, hR, hid⟩
          · intro cc3 response3 h1 h2
            rw [huniq cc3 response3 h1 h2]
            refine ⟨fun h3 => ?_, fun result3 h3 hne => ?_⟩
            · rw [hR] at h3
              cases h3
            · rw [hR] at h3
              cases h3
              exact (hne hid).elim
        · have hb : (result.ID != id) = true := by simpa using hid
          refine ⟨?_, ?_⟩
          · simp only [DeleteRuntime, hEx, hR, hb, if_true]
            constructor
            · intro h
              cases h
            · rintro ⟨cc3, response3, result3, h1, h2, h3, h4⟩
              rw [huniq cc3 response3 h1 h2, hR] at h3
              cases h3
              exact (hid h4).elim
          · intro cc3 response3 h1 h2
            rw [huniq cc3 response3 h1 h2]
            refine ⟨fun h3 => ?_, fun result3 h3 _ => ?_⟩
            · rw [hR] at h3
              cases h3
            · rw [hR] at h3
              cases h3
              simp only [DeleteRuntime, hEx, hR, hb, if_true]
              exact ⟨_, rfl, rfl, rfl, rfl⟩

theorem UpdateRuntime_DeleteRuntime_contract_witness :
    (DeleteRuntime
      (samples.env samples.goodOAuth samples.emptyCheck (samples.answering (some samples.runtime)))
      "runtimeID" "tenant" samples.readyClient).1 = none ∧
    ∃ err, (UpdateRuntime
      (samples.env samples.goodOAuth samples.emptyCheck (samples.answering (some samples.runtime)))
      "otherID" (some { Name := "runtime", Description := none, Labels := none,
                        StatusCondition := some .FAILED })
      "tenant" samples.readyClient).1 = some err ∧
      err.code = ErrCode.CodeInternal ∧ err.component = ErrCompassDirector ∧
      err.reason = ErrDirectorRuntimeIDMismatch :=
  ⟨(UpdateRuntime_DeleteRuntime_contract
      (samples.env samples.goodOAuth samples.emptyCheck (samples.answering (some samples.runtime)))
      "runtimeID" "tenant" samples.readyClient).2.2.1.2
      ⟨{ token := samples.goodToken, tokenChecks := 1, oauthCalls := 0, requests := [] },
        { Runtime := some samples.runtime, OneTimeToken := none }, samples.runtime,
        by decide, rfl, rfl, rfl⟩,
   ((((UpdateRuntime_DeleteRuntime_contract
      (samples.env samples.goodOAuth samples.emptyCheck (samples.answering (some samples.runtime)))
      "otherID" "tenant" samples.readyClient).2.1
      { Name := "runtime", Description := none, Labels := none, StatusCondition := some .FAILED }
      "runtime" rfl).2
      { token := samples.goodToken, tokenChecks := 1, oauthCalls := 0, requests := [] }
      { Runtime := some samples.runtime, OneTimeToken := none } (by decide) rfl).2
      samples.runtime rfl (by decide))⟩

/-! Token handling of a remote call -/

theorem newDirectorRequest_headers (q tenant : String) (token : oauth.Token) :
    (newDirectorRequest q tenant token).query = q ∧
    (newDirectorRequest q tenant token).HeaderGet AuthorizationHeader =
      some ("Bearer " ++ token.AccessToken) ∧
    (newDirectorRequest q tenant token).HeaderGet TenantHeader = some tenant := by
  have h1 : ("Authorization" != "Tenant") = true := by decide
  have h2 : ("Tenant" == "Authorization") = false := by decide
  simp [newDirectorRequest, gcli.NewRequest, gcli.Request.HeaderSet, gcli.Request.HeaderGet,
    AuthorizationHeader, TenantHeader, h1, h2]

theorem executeDirectorGraphQLCall_tokenDiscipline (env : Env) (q tenant : String)
    (cc : directorClient) :
    tokenDiscipline env q tenant cc (executeDirectorGraphQLCall env q tenant cc).2 := by
  obtain ⟨hq, hA, hT⟩ := newDirectorRequest_headers q tenant
    (executeDirectorGraphQLCall env q tenant cc).2.token
  unfold tokenDiscipline
  rcases hE : env.EmptyOrExpired cc.tokenChecks cc.token
  · have hTok := refreshToken_valid env cc hE
    have hS := executeDirectorGraphQLCall_state env q tenant cc _ hTok
    refine ⟨?_, ?_, Or.inr ⟨newDirectorRequest q tenant
      (executeDirectorGraphQLCall env q tenant cc).2.token, ?_, hq, hA, hT⟩⟩
    · rw [hS]
      simp
    · intro _
      rw [hS]
    · rw [hS]
  · rcases hO : env.GetAuthorizationToken cc.oauthCalls with oe | token
    · have hEx : (executeDirectorGraphQLCall env q tenant cc).2 =
          { cc with tokenChecks := cc.tokenChecks + 1, oauthCalls := cc.oauthCalls + 1 } := by
        simp only [executeDirectorGraphQLCall, refreshToken, hE, if_true, getToken, hO]
      refine ⟨?_, ?_, Or.inl ?_⟩
      · rw [hEx]
        simp
      · intro h
        cases h
      · rw [hEx]
    · rcases hE2 : env.EmptyOrExpired (cc.tokenChecks + 1) token
      · have hTok : refreshToken env cc =
            (none, { cc with token := token, oauthCalls := cc.oauthCalls + 1,
                             tokenChecks := cc.tokenChecks + 1 + 1 }) := by
          simp [refreshToken, hE, getToken, hO, hE2]
        have hS := executeDirectorGraphQLCall_state env q tenant cc _ hTok
        refine ⟨?_, ?_, Or.inr ⟨newDirectorRequest q tenant
          (executeDirectorGraphQLCall env q tenant cc).2.token, ?_, hq, hA, hT⟩⟩
        · rw [hS]
          simp
        · intro h
          cases h
        · rw [hS]
      · have hEx : (executeDirectorGraphQLCall env q tenant cc).2 =
            { cc with tokenChecks := cc.tokenChecks + 1 + 1, oauthCalls := cc.oauthCalls + 1 } := by
          simp only [executeDirectorGraphQLCall, refreshToken, hE, if_true, getToken, hO, hE2]
        refine ⟨?_, ?_, Or.inl ?_⟩
        · rw [hEx]
          simp
        · intro h
          cases h
        · rw [hEx]

theorem CreateRuntime_state (env : Env) (tenant : String) (cc : directorClient)
    (config : gqlschema.RuntimeInput) (gqlInput : String)
    (hG : env.RuntimeInputToGQL
      { Name := config.Name, Description := config.Description, Labels := config.Labels,
        StatusCondition := none } = .ok gqlInput) :
    (CreateRuntime env (some config) tenant cc).2 =
      (executeDirectorGraphQLCall env (env.createRuntimeMutation gqlInput) tenant cc).2 := by
  have hL : (match config.Labels with | some l => some l | none => none) = config.Labels := by
    cases config.Labels <;> rfl
  rcases hEx : executeDirectorGraphQLCall env (env.createRuntimeMutation gqlInput) tenant cc
    with ⟨err | response, cc2⟩
  · simp only [CreateRuntime, hL, hG, hEx]
  · simp only [CreateRuntime, hL, hG, hEx]
    split <;> rfl

theorem DeleteRuntime_state (env : Env) (id tenant : String) (cc : directorClient) :
    (DeleteRuntime env id tenant cc).2 =
      (executeDirectorGraphQLCall env (env.deleteRuntimeMutation id) tenant cc).2 := by
  rcases hEx : executeDirectorGraphQLCall env (env.deleteRuntimeMutation id) tenant cc
    with ⟨err | response, cc2⟩
  · simp only [DeleteRuntime, hEx]
  · simp only [DeleteRuntime, hEx]
    split
    · rfl
    · split <;> rfl

theorem RuntimeExists_state (env : Env) (id tenant : String) (cc : directorClient) :
    (RuntimeExists env id tenant cc).2 =
      (executeDirectorGraphQLCall env (env.getRuntimeQuery id) tenant cc).2 := by
  rcases hEx : executeDirectorGraphQLCall env (env.getRuntimeQuery id) tenant cc
    with ⟨err | response, cc2⟩
  · simp only [RuntimeExists, hEx]
    split <;> rfl
  · simp only [RuntimeExists, hEx]
    split <;> rfl

theorem GetConnectionToken_state (env : Env) (id tenant : String) (cc : directorClient) :
    (GetConnectionToken env id tenant cc).2 =
      (executeDirectorGraphQLCall env (env.requestOneTimeTokeneMutation id) tenant cc).2 := by
  rcases hEx : executeDirectorGraphQLCall env (env.requestOneTimeTokeneMutation id) tenant cc
    with ⟨err | response, cc2⟩
  · simp only [GetConnectionToken, hEx]
  · simp only [GetConnectionToken, hEx]
    split <;> rfl

/-- C13 (as stated, refuted): `CreateRuntime` with a nil config does not invoke the
OAuth client although the cached token is empty when the operation starts; and
`SetRuntimeStatusCondition`, started with a valid cached token that expires between
its fetch and its update, invokes the OAuth client and replaces the cached token. -/
theorem token_discipline_not_per_operation :
    samples.emptyCheck samples.freshClient.tokenChecks samples.freshClient.token = true ∧
    (CreateRuntime
      (samples.env samples.goodOAuth samples.emptyCheck (samples.answering (some samples.runtime)))
      none "tenant" samples.freshClient).2.oauthCalls = samples.freshClient.oauthCalls ∧
    samples.expiringCheck samples.readyClient.tokenChecks samples.readyClient.token = false ∧
    (SetRuntimeStatusCondition
      (samples.env samples.renewingOAuth samples.expiringCheck
        (samples.answering (some samples.runtime)))
      "runtimeID" .CONNECTED "tenant" samples.readyClient).1 = none ∧
    (SetRuntimeStatusCondition
      (samples.env samples.renewingOAuth samples.expiringCheck
        (samples.answering (some samples.runtime)))
      "runtimeID" .CONNECTED "tenant" samples.readyClient).2.oauthCalls =
        samples.readyClient.oauthCalls + 1 ∧
    (SetRuntimeStatusCondition
      (samples.env samples.renewingOAuth samples.expiringCheck
        (samples.answering (some samples.runtime)))
      "runtimeID" .CONNECTED "tenant" samples.readyClient).2.token = samples.renewedToken ∧
    samples.renewedToken ≠ samples.readyClient.token := by
  refine ⟨rfl, rfl, rfl, rfl, rfl, rfl, by decide⟩

/-- C13 (amended): every remote call of the client keeps the token discipline: the
OAuth client is invoked exactly when the cached token is empty or expired at the
start of that call, and then once; a cached token valid at that moment is left
unchanged; the request handed to the registry carries `Authorization` = `"Bearer "`
plus the access token cached at that moment and `Tenant` = the tenant argument. This
holds for the one call of `GetRuntime`, `DeleteRuntime`, `RuntimeExists`,
`GetConnectionToken`, of `CreateRuntime` and `UpdateRuntime` on an input that
serialises, and for each of the two calls of `SetRuntimeStatusCondition` (the second
one starting where the fetch ended). `CreateRuntime` and `UpdateRuntime` on a nil or
non-serialising input, and `SetRuntimeStatusCondition` after a failed fetch, make no
further call and leave the client as it is. -/
theorem remote_call_token_discipline (env : Env) (id tenant : String) (cc : directorClient) :
    (∀ q, tokenDiscipline env q tenant cc (executeDirectorGraphQLCall env q tenant cc).2) ∧
    ((CreateRuntime env none tenant cc).2 = cc ∧
      (∀ config err,
        env.RuntimeInputToGQL
          { Name := config.Name, Description := config.Description, Labels := config.Labels,
            StatusCondition := none } = .error err →
        (CreateRuntime env (some config) tenant cc).2 = cc) ∧
      (∀ config gqlInput,
        env.RuntimeInputToGQL
          { Name := config.Name, Description := config.Description, Labels := config.Labels,
            StatusCondition := none } = .ok gqlInput →
        tokenDiscipline env (env.createRuntimeMutation gqlInput) tenant cc
          (CreateRuntime env (some config) tenant cc).2)) ∧
    tokenDiscipline env (env.getRuntimeQuery id) tenant cc (GetRuntime env id tenant cc).2 ∧
    ((UpdateRuntime env id none tenant cc).2 = cc ∧
      (∀ directorInput err, env.RuntimeInputToGQL directorInput = .error err →
        (UpdateRuntime env id (some directorInput) tenant cc).2 = cc) ∧
      (∀ directorInput gqlInput, env.RuntimeInputToGQL directorInput = .ok gqlInput →
        tokenDiscipline env (env.updateRuntimeMutation id gqlInput) tenant cc
          (UpdateRuntime env id (some directorInput) tenant cc).2)) ∧
    tokenDiscipline env (env.deleteRuntimeMutation id) tenant cc (DeleteRuntime env id tenant cc).2 ∧
    tokenDiscipline env (env.getRuntimeQuery id) tenant cc (RuntimeExists env id tenant cc).2 ∧
    tokenDiscipline env (env.requestOneTimeTokeneMutation id) tenant cc
      (GetConnectionToken env id tenant cc).2 ∧
    (∀ statusCondition r err ccGet, GetRuntime env id tenant cc = ((r, some err), ccGet) →
      (SetRuntimeStatusCondition env id statusCondition tenant cc).2 = ccGet) ∧
    (∀ statusCondition r ccGet gqlInput, GetRuntime env id tenant cc = ((r, none), ccGet) →
      env.RuntimeInputToGQL
        { Name := r.Name, Description := r.Description, Labels := r.Labels,
          StatusCondition := some statusCondition } = .ok gqlInput →
      tokenDiscipline env (env.updateRuntimeMutation id gqlInput) tenant ccGet
        (SetRuntimeStatusCondition env id statusCondition tenant cc).2) := by
  refine ⟨fun q => executeDirectorGraphQLCall_tokenDiscipline env q tenant cc, ⟨rfl, ?_, ?_⟩, ?_,
    ⟨rfl, ?_, ?_⟩, ?_, ?_, ?_, ?_, ?_⟩
  · intro config err hG
    have hL : (match config.Labels with | some l => some l | none => none) = config.Labels := by
      cases config.Labels <;> rfl
    simp only [CreateRuntime, hL, hG]
  · intro config gqlInput hG
    rw [CreateRuntime_state env tenant cc config gqlInput hG]
    exact executeDirectorGraphQLCall_tokenDiscipline env _ tenant cc
  · rw [GetRuntime_state]
    exact executeDirectorGraphQLCall_tokenDiscipline env _ tenant cc
  · intro directorInput err hG
    simp only [UpdateRuntime, hG]
  · intro directorInput gqlInput hG
    rw [UpdateRuntime_state env id tenant cc directorInput gqlInput hG]
    exact executeDirectorGraphQLCall_tokenDiscipline env _ tenant cc
  · rw [DeleteRuntime_state]
    exact executeDirectorGraphQLCall_tokenDiscipline env _ tenant cc
  · rw [RuntimeExists_state]
    exact executeDirectorGraphQLCall_tokenDiscipline env _ tenant cc
  · rw [GetConnectionToken_state]
    exact executeDirectorGraphQLCall_tokenDiscipline env _ tenant cc
  · intro statusCondition r err ccGet hGet
    simp only [SetRuntimeStatusCondition, hGet]
  · intro statusCondition r ccGet gqlInput hGet hG
    have hS : (SetRuntimeStatusCondition env id statusCondition tenant cc).2 =
        (UpdateRuntime env id
          (some { Name := r.Name, Description := r.Description, Labels := r.Labels,
                  StatusCondition := some statusCondition }) tenant ccGet).2 := by
      simp only [SetRuntimeStatusCondition, hGet]
      rcases UpdateRuntime env id
        (some { Name := r.Name, Description := r.Description, Labels := r.Labels,
                StatusCondition := some statusCondition }) tenant ccGet with ⟨_ | err, cc2⟩ <;> rfl
    rw [hS, UpdateRuntime_state env id tenant ccGet _ gqlInput hG]
    exact executeDirectorGraphQLCall_tokenDiscipline env _ tenant ccGet

theorem remote_call_token_discipline_witness :
    tokenDiscipline
      (samples.env samples.renewingOAuth samples.expiringCheck
        (samples.answering (some samples.runtime)))
      "update runtimeID runtime" "tenant"
      { token := samples.goodToken, tokenChecks := 1, oauthCalls := 0,
        requests := [newDirectorRequest "get runtimeID" "tenant" samples.goodToken] }
      (SetRuntimeStatusCondition
        (samples.env samples.renewingOAuth samples.expiringCheck
          (samples.answering (some samples.runtime)))
        "runtimeID" .CONNECTED "tenant" samples.readyClient).2 :=
  (remote_call_token_discipline
    (samples.env samples.renewingOAuth samples.expiringCheck
      (samples.answering (some samples.runtime)))
    "runtimeID" "tenant" samples.readyClient).2.2.2.2.2.2.2.2 .CONNECTED samples.runtime
    { token := samples.goodToken, tokenChecks := 1, oauthCalls := 0,
      requests := [newDirectorRequest "get runtimeID" "tenant" samples.goodToken] }
    "runtime" (by decide) rfl

/-! Fetch and existence check on the same response -/

/-- C14: on the same environment, client state and response to the get-runtime query,
if `GetRuntime` succeeds then `RuntimeExists` returns `(true, nil)`. The converse
fails: `RuntimeExists` returns `(true, nil)` for every non-nil result, also for one
whose ID differs from the requested id, for which `GetRuntime` fails. -/
theorem GetRuntime_success_implies_RuntimeExists (env : Env) (id tenant : String)
    (cc : directorClient) :
    ((GetRuntime env id tenant cc).1.2 = none →
      (RuntimeExists env id tenant cc).1 = (true, none)) ∧
    (∀ cc1 response result, refreshToken env cc = (none, cc1) →
      env.Do cc1.requests.length (newDirectorRequest (env.getRuntimeQuery id) tenant cc1.token)
        = .ok response →
      response.Runtime = some result →
      (RuntimeExists env id tenant cc).1 = (true, none) ∧
      (result.ID ≠ id → (GetRuntime env id tenant cc).1.2 ≠ none)) ∧
    ¬ (∀ (env2 : Env) (id2 tenant2 : String) (cc2 : directorClient),
      (RuntimeExists env2 id2 tenant2 cc2).1 = (true, none) →
      (GetRuntime env2 id2 tenant2 cc2).1.2 = none) := by
  refine ⟨?_, ?_, ?_⟩
  · intro h
    rcases hEx : executeDirectorGraphQLCall env (env.getRuntimeQuery id) tenant cc
      with ⟨err | response, cc2⟩
    · simp only [GetRuntime, hEx] at h
      cases h
    · rcases hR : response.Runtime with _ | result
      · simp only [GetRuntime, hEx, hR] at h
        cases h
      · simp only [RuntimeExists, hEx, hR]
  · intro cc1 response result hTok hDo hR
    have hEx := (executeDirectorGraphQLCall_ok_iff env (env.getRuntimeQuery id) tenant cc _
      response).2 ⟨cc1, hTok, hDo, rfl⟩
    refine ⟨by simp only [RuntimeExists, hEx, hR], ?_⟩
    intro hid
    have hb : (result.ID != id) = true := by simpa using hid
    simp only [GetRuntime, hEx, hR, hb, if_true]
    intro h
    cases h
  · intro h
    have := h (samples.env samples.goodOAuth samples.emptyCheck
      (samples.answering (some samples.runtime))) "otherID" "tenant" samples.readyClient rfl
    revert this
    decide

theorem GetRuntime_success_implies_RuntimeExists_witness :
    (RuntimeExists
      (samples.env samples.goodOAuth samples.emptyCheck (samples.answering (some samples.runtime)))
      "runtimeID" "tenant" samples.readyClient).1 = (true, none) ∧
    (RuntimeExists
      (samples.env samples.goodOAuth samples.emptyCheck (samples.answering (some samples.runtime)))
      "otherID" "tenant" samples.readyClient).1 = (true, none) ∧
    (GetRuntime
      (samples.env samples.goodOAuth samples.emptyCheck (samples.answering (some samples.runtime)))
      "otherID" "tenant" samples.readyClient).1.2 ≠ none :=
  ⟨(GetRuntime_success_implies_RuntimeExists
      (samples.env samples.goodOAuth samples.emptyCheck (samples.answering (some samples.runtime)))
      "runtimeID" "tenant" samples.readyClient).1 (by decide),
   ((GetRuntime_success_implies_RuntimeExists
      (samples.env samples.goodOAuth samples.emptyCheck (samples.answering (some samples.runtime)))
      "otherID" "tenant" samples.readyClient).2.1
      { token := samples.goodToken, tokenChecks := 1, oauthCalls := 0, requests := [] }
      { Runtime := some samples.runtime, OneTimeToken := none } samples.runtime
      (by decide) rfl rfl).1,
   ((GetRuntime_success_implies_RuntimeExists
      (samples.env samples.goodOAuth samples.emptyCheck (samples.answering (some samples.runtime)))
      "otherID" "tenant" samples.readyClient).2.1
      { token := samples.goodToken, tokenChecks := 1, oauthCalls := 0, requests := [] }
      { Runtime := some samples.runtime, OneTimeToken := none } samples.runtime
      (by decide) rfl rfl).2 (by decide)⟩

end director
